import Mathlib

/-
Verification development for the ndg_saml SAML 2.0 ElementTree binding layer
(`saml/xml/etree.py`) and the SOAP authorisation-decision test callback
(`ndg/saml/test/binding/soap/test_soapauthzdecisioninterface.py`).

XML elements are modelled as a tree of tag / attribute-list / text / children,
mirroring `xml.etree.ElementTree.Element`.  Python exceptions raised by the
binding code are modelled as values of an error enumeration carried in
`Except`.  Python `None` becomes `Option.none`; Python dictionaries of XML
attributes become association lists looked up by key.
-/

namespace NdgSaml

/-- Closing curly-brace character used by ElementTree combined tags. -/
def braceClose : Char := Char.ofNat 125

/-- Opening curly-brace character used by ElementTree combined tags. -/
def braceOpen : Char := Char.ofNat 123

/-- Helper for `afterLast`: walks the character list, resetting the current
segment each time the separator is seen, and returns the final segment. -/
def afterLastGo (sep : Char) (cur : List Char) : List Char → List Char
  | [] => cur.reverse
  | c :: cs => if c = sep then afterLastGo sep [] cs else afterLastGo sep (c :: cur) cs

/-- Segment of `t` after the last occurrence of `sep` (the whole string when
`sep` does not occur), as in Python `t.rsplit(sep, 1)[-1]` and
`t.split(sep)[-1]`. -/
def afterLast (sep : Char) (t : String) : String := ⟨afterLastGo sep [] t.data⟩

/-- Local part of an ElementTree combined tag, as in
`QName.getLocalPart = tag.rsplit(chr(125), 1)[-1]` in `etree.py`. -/
def getLocalPart (t : String) : String := afterLast braceClose t

/-- ElementTree combined tag built from a namespace URI and a local part, as
produced by `str(QName.fromGeneric(...))`. -/
def etTag (ns localPart : String) : String :=
  String.singleton braceOpen ++ ns ++ String.singleton braceClose ++ localPart

/-- Python `str.strip()` restricted to ASCII-style whitespace. -/
def pyStrip (s : String) : String :=
  ⟨((s.data.dropWhile Char.isWhitespace).reverse.dropWhile Char.isWhitespace).reverse⟩

/-- Association-list lookup mirroring Python `dict.get(key)` (keys are unique
in every list built by the binding code). -/
def lookupAssoc {κ α : Type} [DecidableEq κ] : List (κ × α) → κ → Option α
  | [], _ => none
  | p :: rest, k => if p.1 = k then some p.2 else lookupAssoc rest k

/-- Association-list store mirroring Python `dict.__setitem__`: replaces the
entry in place when the key exists, appends otherwise. -/
def updAssoc {κ α : Type} [DecidableEq κ] : List (κ × α) → κ → α → List (κ × α)
  | [], k, v => [(k, v)]
  | p :: rest, k, v => if p.1 = k then (k, v) :: rest else p :: updAssoc rest k v

/-- ElementTree XML element: combined tag, attribute dictionary, text and
child elements, mirroring `xml.etree.ElementTree.Element`. -/
structure XMLElem where
  tag : String
  attrib : List (String × String)
  text : Option String
  children : List XMLElem

/-- Python `elem.attrib.get(key)`. -/
def getAttr (attrib : List (String × String)) (key : String) : Option String :=
  lookupAssoc attrib key

/-- Failure kinds raised by the binding code.  `typeMismatch` and `noCodec`
are Python `TypeError`; `wrongElement`, `missingAttribute`,
`badChildCardinality`, `unrecognisedChild`, `missingTypeAttr` and
`wrongTypeAttr` are `XMLObjectParseError`; `unsupportedVersion` and
`notImplementedGap` are `NotImplementedError`; `attributeError` and
`valueError` are the Python built-in exceptions of those names. -/
inductive PErr where
  | typeMismatch
  | noCodec
  | wrongElement
  | missingAttribute
  | badChildCardinality
  | unrecognisedChild
  | missingTypeAttr
  | wrongTypeAttr
  | unsupportedVersion
  | notImplementedGap
  | attributeError
  | valueError
  deriving DecidableEq

/-- True exactly for the error kinds raised as `XMLObjectParseError` (the
spec's StructuralParseError) by the source. -/
def PErr.isStructural : PErr → Bool
  | .wrongElement | .missingAttribute | .badChildCardinality
  | .unrecognisedChild | .missingTypeAttr | .wrongTypeAttr => true
  | _ => false

/-- Character for a single decimal digit. -/
def digitChar (d : Nat) : Char := Char.ofNat (48 + d)

/-- Decimal digit denoted by a character. -/
def charDigit (c : Char) : Nat := c.toNat - 48

/-- Little-endian decimal digits of `n`, with explicit fuel (`fuel ≥ n`
suffices). -/
def digitsRev (fuel n : Nat) : List Nat :=
  match fuel with
  | 0 => []
  | fuel + 1 => if n = 0 then [] else n % 10 :: digitsRev fuel (n / 10)

/-- Value of a little-endian decimal digit list. -/
def undigits : List Nat → Nat
  | [] => 0
  | d :: ds => d + 10 * undigits ds

/-- Modelled from the spec: `IssueInstantXMLObject.datetime2Str` (class
`saml.xml.IssueInstantXMLObject`, not under `src/`) renders a timestamp as a
string; timestamps are abstracted as natural numbers and rendered in
decimal. -/
def datetime2Str (n : Nat) : String :=
  if n = 0 then "0" else ⟨((digitsRev n n).map digitChar).reverse⟩

/-- Modelled from the spec: `IssueInstantXMLObject.str2Datetime` (not under
`src/`) parses a timestamp string, failing (Python `ValueError`) on
non-numeric input; inverse of `datetime2Str`. -/
def str2Datetime (s : String) : Option Nat :=
  if s.data.isEmpty then none
  else if s.data.all Char.isDigit then
    some (undigits ((s.data.map charDigit).reverse))
  else none

theorem digitsRev_mem_lt (fuel : Nat) : ∀ n d : Nat, d ∈ digitsRev fuel n → d < 10 := by
  induction fuel with
  | zero => intro n d h; simp [digitsRev] at h
  | succ f ih =>
    intro n d h
    by_cases hn : n = 0
    · simp [digitsRev, hn] at h
    · simp only [digitsRev, if_neg hn, List.mem_cons] at h
      rcases h with h | h
      · subst h; exact Nat.mod_lt _ (by norm_num)
      · exact ih _ _ h

theorem undigits_digitsRev (fuel : Nat) : ∀ n : Nat, n ≤ fuel → undigits (digitsRev fuel n) = n := by
  induction fuel with
  | zero =>
    intro n h
    interval_cases n
    simp [digitsRev, undigits]
  | succ f ih =>
    intro n h
    by_cases hn : n = 0
    · simp [digitsRev, hn, undigits]
    · simp only [digitsRev, if_neg hn, undigits]
      have hdiv : n / 10 ≤ f := by
        have := Nat.div_lt_self (Nat.pos_of_ne_zero hn) (by norm_num : 1 < 10)
        omega
      rw [ih _ hdiv, Nat.mod_add_div]

theorem digitChar_isDigit (d : Nat) (h : d < 10) : (digitChar d).isDigit = true := by
  interval_cases d <;> decide

theorem charDigit_digitChar (d : Nat) (h : d < 10) : charDigit (digitChar d) = d := by
  interval_cases d <;> decide

theorem str2Datetime_datetime2Str (n : Nat) : str2Datetime (datetime2Str n) = some n := by
  by_cases hn : n = 0
  · subst hn; decide
  · have hne : digitsRev n n ≠ [] := by
      cases n with
      | zero => exact absurd rfl hn
      | succ m => simp [digitsRev]
    unfold datetime2Str
    rw [if_neg hn]
    unfold str2Datetime
    have hdata : (String.mk (((digitsRev n n).map digitChar).reverse)).data
        = ((digitsRev n n).map digitChar).reverse := rfl
    rw [hdata]
    have hnonempty : (((digitsRev n n).map digitChar).reverse).isEmpty = false := by
      rw [List.isEmpty_eq_false_iff_exists_mem]
      rcases List.exists_mem_of_ne_nil _ hne with ⟨d, hd⟩
      exact ⟨digitChar d, by simp [List.mem_reverse]; exact ⟨d, hd, rfl⟩⟩
    rw [hnonempty]
    simp only [Bool.false_eq_true, if_false]
    have halldig : (((digitsRev n n).map digitChar).reverse).all Char.isDigit = true := by
      rw [List.all_eq_true]
      intro c hc
      rw [List.mem_reverse, List.mem_map] at hc
      rcases hc with ⟨d, hd, rfl⟩
      exact digitChar_isDigit d (digitsRev_mem_lt n n d hd)
    rw [halldig]
    simp only [if_true]
    congr 1
    rw [List.map_reverse, List.reverse_reverse, List.map_map]
    have hmap : (digitsRev n n).map (charDigit ∘ digitChar) = (digitsRev n n).map id :=
      List.map_congr_left (fun d hd => charDigit_digitChar d (digitsRev_mem_lt n n d hd))
    rw [hmap, List.map_id]
    exact undigits_digitsRev n n le_rfl

/-
Constants.  The namespace URIs and element/attribute names live in
`saml.saml2.core` and `saml.common.xml.SAMLConstants`, which are not under
`src/`; their values are modelled from the spec ("must match OASIS SAML 2.0
namespaces exactly") and from the literals the `src/` code keys on
(for example the `"xs:string"` entry of the factory id map).
-/

def saml20NS : String := "urn:oasis:names:tc:SAML:2.0:assertion"
def saml20pNS : String := "urn:oasis:names:tc:SAML:2.0:protocol"
def xsdNS : String := "http://www.w3.org/2001/XMLSchema"
def xsiNS : String := "http://www.w3.org/2001/XMLSchema-instance"
def xmlnsPre : String := "xmlns"
def xsdPre : String := "xs"
def xsiPre : String := "xsi"
def version20 : String := "2.0"

def issuerLocal : String := "Issuer"
def nameIDLocal : String := "NameID"
def subjectLocal : String := "Subject"
def statusCodeLocal : String := "StatusCode"
def statusLocal : String := "Status"
def conditionsLocal : String := "Conditions"
def assertionLocal : String := "Assertion"
def attributeLocal : String := "Attribute"
def attributeValueLocal : String := "AttributeValue"
def attributeStatementLocal : String := "AttributeStatement"
def attributeQueryLocal : String := "AttributeQuery"
def responseLocal : String := "Response"

def issuerTag : String := etTag saml20NS issuerLocal
def nameIDTag : String := etTag saml20NS nameIDLocal
def subjectTag : String := etTag saml20NS subjectLocal
def statusCodeTag : String := etTag saml20pNS statusCodeLocal
def statusTag : String := etTag saml20pNS statusLocal
def conditionsTag : String := etTag saml20NS conditionsLocal
def assertionTag : String := etTag saml20NS assertionLocal
def attributeTag : String := etTag saml20NS attributeLocal
def attributeValueTag : String := etTag saml20NS attributeValueLocal
def attributeStatementTag : String := etTag saml20NS attributeStatementLocal
def attributeQueryTag : String := etTag saml20pNS attributeQueryLocal
def responseTag : String := etTag saml20pNS responseLocal

def formatAttrName : String := "Format"
def idAttrName : String := "ID"
def issueInstantAttrName : String := "IssueInstant"
def versionAttrName : String := "Version"
def inResponseToAttrName : String := "InResponseTo"
def nameAttrName : String := "Name"
def friendlyNameAttrName : String := "FriendlyName"
def nameFormatAttrName : String := "NameFormat"
def notBeforeAttrName : String := "NotBefore"
def notOnOrAfterAttrName : String := "NotOnOrAfter"
def groupAttrName : String := "group"
def roleAttrName : String := "role"

/-- `StatusCode.SUCCESS_URI` of `saml.saml2.core` (not under `src/`),
modelled from the spec's SUCCESS status value. -/
def successURI : String := "urn:oasis:names:tc:SAML:2.0:status:Success"

/-- `Issuer.X509_SUBJECT` name-identifier format constant. -/
def x509SubjectFormat : String := "urn:oasis:names:tc:SAML:1.1:nameid-format:X509SubjectName"

/-- `Action.GHPP_NS_URI`. -/
def ghppNSURI : String := "urn:oasis:names:tc:SAML:1.0:action:ghpp"

/-- `Action.HTTP_GET_ACTION`. -/
def httpGetAction : String := "GET"

/-- `TestAuthorisationServiceMiddleware.RESOURCE_URI` from the test module. -/
def resourceURI : String := "http://localhost/dap/data/"

/-- `TestAuthorisationServiceMiddleware.ISSUER_DN` from the test module. -/
def issuerDN : String := "/O=Test/OU=Authorisation/CN=Service Stub"

/-
Data model.  The classes live in `saml.saml2.core` (not under `src/`); the
fields are modelled from the spec's data-model section and from the exact
attribute accesses the `src/` code performs.  Fields the Python classes
default to `None` are `Option`s; the `version` field is the string rendering
of `SAMLVersion` (only `"2.0"` is ever accepted); timestamps are the
abstract naturals of `datetime2Str`/`str2Datetime`.
-/

structure Issuer where
  format : Option String
  value : Option String
  deriving DecidableEq

structure NameID where
  format : Option String
  value : Option String
  deriving DecidableEq

structure Subject where
  nameID : Option NameID
  deriving DecidableEq

structure StatusCode where
  value : Option String
  deriving DecidableEq

structure Status where
  statusCode : Option StatusCode
  statusMessage : Option String
  deriving DecidableEq

structure Conditions where
  notBefore : Nat
  notOnOrAfter : Nat
  conditions : List Unit
  deriving DecidableEq

/-- SAML Action; the Python field `namespace` is called `ns` here because
`namespace` is a Lean keyword. -/
structure Action where
  ns : Option String
  value : Option String
  deriving DecidableEq

inductive DecisionType where
  | permit | deny | indeterminate
  deriving DecidableEq

structure AuthzDecisionStatement where
  decision : DecisionType
  resource : Option String
  actions : List Action
  deriving DecidableEq

/-- SAML attribute values: the `XSStringAttributeValue` and
`XSGroupRoleAttributeValue` variants handled in `etree.py`, plus an
extensible family of custom variants (claim C7's "new AttributeValue
codec"), discriminated by a class identifier. -/
inductive AttributeValue where
  | xsstring (value : Option String)
  | xsgroupRole (group role nsURI : String)
  | custom (classId : Nat) (payload : String)
  deriving DecidableEq

structure Attribute where
  name : Option String
  friendlyName : Option String
  nameFormat : Option String
  attributeValues : List AttributeValue
  deriving DecidableEq

structure AttributeStatement where
  attributes : List Attribute
  deriving DecidableEq

/-- SAML Assertion.  `advice`, `statements`, `authnStatements` and
`authzDecisionStatements` are only ever tested for emptiness by the `src/`
serialisation code (each non-empty case raises `NotImplementedError`), so
`statements` and `authnStatements` carry no payload. -/
structure Assertion where
  id : String
  issueInstant : Nat
  version : String
  issuer : Option Issuer
  subject : Option Subject
  advice : Option Unit
  conditions : Option Conditions
  statements : List Unit
  authnStatements : List Unit
  authzDecisionStatements : List AuthzDecisionStatement
  attributeStatements : List AttributeStatement
  deriving DecidableEq

structure AttributeQuery where
  id : String
  issueInstant : Nat
  version : String
  issuer : Option Issuer
  subject : Option Subject
  attributes : List Attribute
  deriving DecidableEq

structure Response where
  id : String
  issueInstant : Nat
  version : String
  inResponseTo : String
  issuer : Option Issuer
  status : Option Status
  subject : Option Subject
  assertions : List Assertion
  deriving DecidableEq

structure AuthzDecisionQuery where
  id : String
  issueInstant : Nat
  version : String
  issuer : Option Issuer
  subject : Subject
  resource : Option String
  actions : List Action
  deriving DecidableEq

/-
AttributeValue factory (`AttributeValueElementTreeFactory`).  Python keys the
class map by the value's concrete class; `AVClassKey` is that key space, and
`AVHandler` models an ElementTree handler class: its `create` classmethod,
and its `parse` classmethod when the class defines one
(`XSGroupRoleAttributeValueElementTree` does not, so calling `parse` on it
is a Python `AttributeError`).
-/

inductive AVClassKey where
  | xsstringK | xsgroupRoleK | customK (n : Nat)
  deriving DecidableEq

def classOf : AttributeValue → AVClassKey
  | .xsstring _ => .xsstringK
  | .xsgroupRole .. => .xsgroupRoleK
  | .custom n _ => .customK n

structure AVHandler where
  createFn : AttributeValue → Except PErr XMLElem
  parseFn : Option (XMLElem → Except PErr AttributeValue)

/-- `XSStringAttributeValueElementTree.create`: base `AttributeValue`
element plus the `xmlns:xs`, `xmlns:xsi` and `xsi:type="xs:string"`
attribute declarations set literally (prefixed keys, not combined-tag
keys), with the value as element text. -/
def XSStringAttributeValueElementTree.create (v : AttributeValue) : Except PErr XMLElem :=
  match v with
  | .xsstring s => .ok
      { tag := attributeValueTag
        attrib := [(xmlnsPre ++ ":" ++ xsdPre, xsdNS),
                   (xmlnsPre ++ ":" ++ xsiPre, xsiNS),
                   (xsiPre ++ ":type", xsdPre ++ ":string")]
        text := s
        children := [] }
  | _ => .error .typeMismatch

/-- `XSStringAttributeValueElementTree.parse`: checks the local name, then
reads the `xsi:type` attribute under its combined-tag key and compares the
segment of its value after the last colon with `"string"`. -/
def XSStringAttributeValueElementTree.parse (e : XMLElem) : Except PErr AttributeValue :=
  if getLocalPart e.tag ≠ attributeValueLocal then .error .wrongElement
  else
    let typeValue := (getAttr e.attrib (etTag xsiNS "type")).getD ""
    if afterLast ':' typeValue ≠ "string" then .error .wrongTypeAttr
    else .ok (.xsstring (e.text.map pyStrip))

/-- `XSGroupRoleAttributeValueElementTree.create`. -/
def XSGroupRoleAttributeValueElementTree.create (v : AttributeValue) : Except PErr XMLElem :=
  match v with
  | .xsgroupRole g r _ => .ok
      { tag := attributeValueTag
        attrib := [(groupAttrName, g), (roleAttrName, r)]
        text := none
        children := [] }
  | _ => .error .typeMismatch

def xsStringHandler : AVHandler :=
  ⟨XSStringAttributeValueElementTree.create, some XSStringAttributeValueElementTree.parse⟩

def xsGroupRoleHandler : AVHandler :=
  ⟨XSGroupRoleAttributeValueElementTree.create, none⟩

/-- Class-level state of `AttributeValueElementTreeFactory`: the shared
`classMap` and `idMap` dictionaries.  Because `__init__` aliases and then
mutates these class attributes, the state is threaded through factory
construction. -/
structure FactoryMaps where
  classMap : List (AVClassKey × AVHandler)
  idMap : List (String × AVHandler)

/-- Initial class-level maps of `AttributeValueElementTreeFactory`: only
`XSStringAttributeValue` / `"xs:string"` are registered. -/
def defaultMaps : FactoryMaps :=
  ⟨[(.xsstringK, xsStringHandler)], [("xs:string", xsStringHandler)]⟩

/-- `AttributeValueElementTreeFactory.__init__`: writes every custom entry
into the (aliased) class-level maps and returns the new shared state.  The
`issubclass`/`isinstance` guards on the custom keys cannot fail in this
typed embedding. -/
def AttributeValueElementTreeFactory.init (st : FactoryMaps)
    (customClassMap : List (AVClassKey × AVHandler))
    (customIdMap : List (String × AVHandler)) : FactoryMaps :=
  ⟨customClassMap.foldl (fun m p => updAssoc m p.1 p.2) st.classMap,
   customIdMap.foldl (fun m p => updAssoc m p.1 p.2) st.idMap⟩

/-- `AttributeValueElementTreeFactory.__call__`: resolves an
`AttributeValue` instance through the class map, or a string type
identifier through the id map; a miss raises `TypeError` ("no matching
XMLObject class representation"). -/
def AttributeValueElementTreeFactory.call (st : FactoryMaps)
    (input : AttributeValue ⊕ String) : Except PErr AVHandler :=
  match input with
  | .inl v =>
    match lookupAssoc st.classMap (classOf v) with
    | some h => .ok h
    | none => .error .noCodec
  | .inr i =>
    match lookupAssoc st.idMap i with
    | some h => .ok h
    | none => .error .noCodec

/-- Effectful map over a list in the `Except PErr` monad, mirroring the
Python `for` loops that serialise or parse repeated children in order and
propagate the first exception. -/
def exceptMapM {α β : Type} (f : α → Except PErr β) : List α → Except PErr (List β)
  | [] => .ok []
  | a :: as =>
    match f a with
    | .error er => .error er
    | .ok b =>
      match exceptMapM f as with
      | .error er => .error er
      | .ok bs => .ok (b :: bs)

/-- `IssuerElementTree.create`: `Format` attribute from `issuer.format`,
element text from `issuer.value`.  (The `ElementTree._namespace_map`
registration is serialisation-prefix state with no effect on any parse and
is not modelled.) -/
def IssuerElementTree.create (i : Issuer) : XMLElem :=
  { tag := issuerTag
    attrib := match i.format with | some f => [(formatAttrName, f)] | none => []
    text := i.value
    children := [] }

/-- `IssuerElementTree.parse`: local-name check, mandatory `Format`
attribute, then `elem.text.strip()` (a Python `AttributeError` when the
text is `None`). -/
def IssuerElementTree.parse (e : XMLElem) : Except PErr Issuer :=
  if getLocalPart e.tag ≠ issuerLocal then .error .wrongElement
  else
    match getAttr e.attrib formatAttrName with
    | none => .error .missingAttribute
    | some f =>
      match e.text with
      | none => .error .attributeError
      | some t => .ok { format := some f, value := some (pyStrip t) }

/-- `NameIdElementTree.create`. -/
def NameIdElementTree.create (n : NameID) : XMLElem :=
  { tag := nameIDTag
    attrib := match n.format with | some f => [(formatAttrName, f)] | none => []
    text := n.value
    children := [] }

/-- `NameIdElementTree.parse`. -/
def NameIdElementTree.parse (e : XMLElem) : Except PErr NameID :=
  if getLocalPart e.tag ≠ nameIDLocal then .error .wrongElement
  else
    match getAttr e.attrib formatAttrName with
    | none => .error .missingAttribute
    | some f =>
      match e.text with
      | none => .error .attributeError
      | some t => .ok { format := some f, value := some (pyStrip t) }

/-- `SubjectElementTree.create`: a single NameID child; passing a subject
whose `nameID` is `None` to `NameIdElementTree.create` raises `TypeError`. -/
def SubjectElementTree.create (s : Subject) : Except PErr XMLElem :=
  match s.nameID with
  | none => .error .typeMismatch
  | some n => .ok { tag := subjectTag, attrib := [], text := none, children := [NameIdElementTree.create n] }

/-- `SubjectElementTree.parse`: local-name check, then exactly one child
element, which is parsed as a NameID. -/
def SubjectElementTree.parse (e : XMLElem) : Except PErr Subject :=
  if getLocalPart e.tag ≠ subjectLocal then .error .wrongElement
  else
    match e.children with
    | [c] =>
      match NameIdElementTree.parse c with
      | .error er => .error er
      | .ok n => .ok { nameID := some n }
    | _ => .error .badChildCardinality

/-- `StatusCodeElementTree.create`: status code value as element text. -/
def StatusCodeElementTree.create (sc : StatusCode) : XMLElem :=
  { tag := statusCodeTag, attrib := [], text := sc.value, children := [] }

/-- `StatusCodeElementTree.parse`: local-name check then
`elem.text.strip()`; child elements are not inspected. -/
def StatusCodeElementTree.parse (e : XMLElem) : Except PErr StatusCode :=
  if getLocalPart e.tag ≠ statusCodeLocal then .error .wrongElement
  else
    match e.text with
    | none => .error .attributeError
    | some t => .ok { value := some (pyStrip t) }

/-- `StatusElementTree.create`: a single StatusCode child; a status whose
`statusCode` is `None` raises `TypeError` inside
`StatusCodeElementTree.create`. -/
def StatusElementTree.create (st : Status) : Except PErr XMLElem :=
  match st.statusCode with
  | none => .error .typeMismatch
  | some sc => .ok { tag := statusTag, attrib := [], text := none, children := [StatusCodeElementTree.create sc] }

/-- `StatusElementTree.parse`: local-name check, exactly one child parsed
as a StatusCode; the `statusMessage` field is never populated. -/
def StatusElementTree.parse (e : XMLElem) : Except PErr Status :=
  if getLocalPart e.tag ≠ statusLocal then .error .wrongElement
  else
    match e.children with
    | [c] =>
      match StatusCodeElementTree.parse c with
      | .error er => .error er
      | .ok sc => .ok { statusCode := some sc, statusMessage := none }
    | _ => .error .badChildCardinality

/-- `ConditionsElementTree.create`: `NotBefore`/`NotOnOrAfter` attributes;
any entry in the extension `conditions` list raises
`NotImplementedError`. -/
def ConditionsElementTree.create (c : Conditions) : Except PErr XMLElem :=
  match c.conditions with
  | [] => .ok
      { tag := conditionsTag
        attrib := [(notBeforeAttrName, datetime2Str c.notBefore),
                   (notOnOrAfterAttrName, datetime2Str c.notOnOrAfter)]
        text := none
        children := [] }
  | _ :: _ => .error .notImplementedGap

/-- Attribute entry written by Python truthiness (`if attribute.name:`): the
attribute is set only when the field is a non-empty string. -/
def truthyAttrEntry (key : String) : Option String → List (String × String)
  | some s => if s = "" then [] else [(key, s)]
  | none => []

/-- Serialisation of one attribute value inside
`AttributeElementTree.create`: resolve the handler class through the
factory, then call its `create`. -/
def avCreateOne (st : FactoryMaps) (v : AttributeValue) : Except PErr XMLElem :=
  match AttributeValueElementTreeFactory.call st (.inl v) with
  | .error er => .error er
  | .ok h => h.createFn v

/-- `AttributeElementTree.create`: `FriendlyName`/`Name`/`NameFormat`
attributes by truthiness, then the attribute values serialised in order
through the factory.  `st` is the factory state the per-value factory
constructions read (constructing with empty custom maps leaves it
unchanged). -/
def AttributeElementTree.create (st : FactoryMaps) (a : Attribute) : Except PErr XMLElem :=
  match exceptMapM (avCreateOne st) a.attributeValues with
  | .error er => .error er
  | .ok es => .ok
      { tag := attributeTag
        attrib := truthyAttrEntry friendlyNameAttrName a.friendlyName ++
                  (truthyAttrEntry nameAttrName a.name ++
                   truthyAttrEntry nameFormatAttrName a.nameFormat)
        text := none
        children := es }

/-- First attribute whose key has local part `type` (the
`QName(attribName).localPart == "type"` scan of
`AttributeElementTree.parse`). -/
def findTypeAttr : List (String × String) → Option String
  | [] => none
  | (k, v) :: rest => if getLocalPart k = "type" then some v else findTypeAttr rest

/-- Parse of one child inside `AttributeElementTree.parse`: the child must
be an `AttributeValue` element with a discoverable type attribute whose id
resolves through the factory to a handler class that defines `parse`. -/
def avParseOne (st : FactoryMaps) (c : XMLElem) : Except PErr AttributeValue :=
  if getLocalPart c.tag ≠ attributeValueLocal then .error .unrecognisedChild
  else
    match findTypeAttr c.attrib with
    | none => .error .missingTypeAttr
    | some tid =>
      match AttributeValueElementTreeFactory.call st (.inr tid) with
      | .error er => .error er
      | .ok h =>
        match h.parseFn with
        | none => .error .attributeError
        | some p => p c

/-- `AttributeElementTree.parse`. -/
def AttributeElementTree.parse (st : FactoryMaps) (e : XMLElem) : Except PErr Attribute :=
  if getLocalPart e.tag ≠ attributeLocal then .error .wrongElement
  else
    match exceptMapM (avParseOne st) e.children with
    | .error er => .error er
    | .ok vs => .ok
        { name := getAttr e.attrib nameAttrName
          friendlyName := getAttr e.attrib friendlyNameAttrName
          nameFormat := getAttr e.attrib nameFormatAttrName
          attributeValues := vs }

/-- `AttributeStatementElementTree.create`. -/
def AttributeStatementElementTree.create (st : FactoryMaps) (s : AttributeStatement) : Except PErr XMLElem :=
  match exceptMapM (AttributeElementTree.create st) s.attributes with
  | .error er => .error er
  | .ok es => .ok { tag := attributeStatementTag, attrib := [], text := none, children := es }

/-- Optional-subject serialisation step of `AssertionElementTree.create`. -/
def optSubjectElems : Option Subject → Except PErr (List XMLElem)
  | none => .ok []
  | some s =>
    match SubjectElementTree.create s with
    | .error er => .error er
    | .ok e => .ok [e]

/-- Optional-conditions serialisation step of
`AssertionElementTree.create`. -/
def optConditionsElems : Option Conditions → Except PErr (List XMLElem)
  | none => .ok []
  | some c =>
    match ConditionsElementTree.create c with
    | .error er => .error er
    | .ok e => .ok [e]

/-- `AssertionElementTree.create`: `ID`/`IssueInstant`/`Version`
attributes; issuer, subject and conditions children only when the fields
are present; `NotImplementedError` for non-empty `advice`, `statements`,
`authnStatements` or `authzDecisionStatements`; attribute statements
serialised in order. -/
def AssertionElementTree.create (st : FactoryMaps) (a : Assertion) : Except PErr XMLElem :=
  let issuerElems : List XMLElem :=
    match a.issuer with | some i => [IssuerElementTree.create i] | none => []
  match optSubjectElems a.subject with
  | .error er => .error er
  | .ok subjElems =>
    if a.advice.isSome then .error .notImplementedGap
    else
      match optConditionsElems a.conditions with
      | .error er => .error er
      | .ok condElems =>
        match a.statements with
        | _ :: _ => .error .notImplementedGap
        | [] =>
          match a.authnStatements with
          | _ :: _ => .error .notImplementedGap
          | [] =>
            match a.authzDecisionStatements with
            | _ :: _ => .error .notImplementedGap
            | [] =>
              match exceptMapM (AttributeStatementElementTree.create st) a.attributeStatements with
              | .error er => .error er
              | .ok stElems => .ok
                  { tag := assertionTag
                    attrib := [(idAttrName, a.id),
                               (issueInstantAttrName, datetime2Str a.issueInstant),
                               (versionAttrName, a.version)]
                    text := none
                    children := issuerElems ++ subjElems ++ condElems ++ stElems }

/-- `AttributeQueryElementTree.create`: `ID`/`IssueInstant`/`Version`
attributes, then issuer, subject and attribute children in that order.  A
`None` issuer or subject raises `TypeError` inside the corresponding
`create`. -/
def AttributeQueryElementTree.create (st : FactoryMaps) (q : AttributeQuery) : Except PErr XMLElem :=
  match q.issuer with
  | none => .error .typeMismatch
  | some i =>
    match q.subject with
    | none => .error .typeMismatch
    | some s =>
      match SubjectElementTree.create s with
      | .error er => .error er
      | .ok subjElem =>
        match exceptMapM (AttributeElementTree.create st) q.attributes with
        | .error er => .error er
        | .ok attrElems => .ok
            { tag := attributeQueryTag
              attrib := [(idAttrName, q.id),
                         (issueInstantAttrName, datetime2Str q.issueInstant),
                         (versionAttrName, q.version)]
              text := none
              children := IssuerElementTree.create i :: subjElem :: attrElems }

/-- Child-element dispatch loop of `AttributeQueryElementTree.parse`:
Issuer, Subject and Attribute children are recognised; anything else is an
`XMLObjectParseError` ("Unrecognised AttributeQuery child element"). -/
def aqParseChildren (st : FactoryMaps) (q : AttributeQuery) : List XMLElem → Except PErr AttributeQuery
  | [] => .ok q
  | c :: cs =>
    if getLocalPart c.tag = issuerLocal then
      match IssuerElementTree.parse c with
      | .error er => .error er
      | .ok i => aqParseChildren st { q with issuer := some i } cs
    else if getLocalPart c.tag = subjectLocal then
      match SubjectElementTree.parse c with
      | .error er => .error er
      | .ok s => aqParseChildren st { q with subject := some s } cs
    else if getLocalPart c.tag = attributeLocal then
      match AttributeElementTree.parse st c with
      | .error er => .error er
      | .ok a => aqParseChildren st { q with attributes := q.attributes ++ [a] } cs
    else .error .unrecognisedChild

/-- `AttributeQueryElementTree.parse`: local-name check; the `Version`,
`IssueInstant` and `ID` attributes are fetched in that order with a
missing-attribute error; then the version is checked against 2.0
(`NotImplementedError` otherwise); then the issue instant is converted and
the children are dispatched. -/
def AttributeQueryElementTree.parse (st : FactoryMaps) (e : XMLElem) : Except PErr AttributeQuery :=
  if getLocalPart e.tag ≠ attributeQueryLocal then .error .wrongElement
  else
    match getAttr e.attrib versionAttrName with
    | none => .error .missingAttribute
    | some ver =>
      match getAttr e.attrib issueInstantAttrName with
      | none => .error .missingAttribute
      | some instantStr =>
        match getAttr e.attrib idAttrName with
        | none => .error .missingAttribute
        | some idv =>
          if ver ≠ version20 then .error .unsupportedVersion
          else
            match str2Datetime instantStr with
            | none => .error .valueError
            | some instant =>
              aqParseChildren st
                { id := idv, issueInstant := instant, version := ver,
                  issuer := none, subject := none, attributes := [] }
                e.children

/-- `ResponseElementTree.create`: `ID`/`IssueInstant`/`InResponseTo`/
`Version` attributes, then issuer, status and assertion children in that
order.  Issuer and status are serialised unconditionally, so a `None`
issuer or status raises `TypeError`. -/
def ResponseElementTree.create (st : FactoryMaps) (r : Response) : Except PErr XMLElem :=
  match r.issuer with
  | none => .error .typeMismatch
  | some i =>
    match r.status with
    | none => .error .typeMismatch
    | some stt =>
      match StatusElementTree.create stt with
      | .error er => .error er
      | .ok statusElem =>
        match exceptMapM (AssertionElementTree.create st) r.assertions with
        | .error er => .error er
        | .ok assertElems => .ok
            { tag := responseTag
              attrib := [(idAttrName, r.id),
                         (issueInstantAttrName, datetime2Str r.issueInstant),
                         (inResponseToAttrName, r.inResponseTo),
                         (versionAttrName, r.version)]
              text := none
              children := IssuerElementTree.create i :: statusElem :: assertElems }

/-- Child-element dispatch loop of `ResponseElementTree.parse`.  An
`Assertion` child is dispatched to `AssertionElementTree.parse`, but the
`AssertionElementTree` class (and its bases `Assertion` and
`IssueInstantXMLObject`) defines no `parse` attribute, so the dispatch
raises a Python `AttributeError`. -/
def respParseChildren (st : FactoryMaps) (r : Response) : List XMLElem → Except PErr Response
  | [] => .ok r
  | c :: cs =>
    if getLocalPart c.tag = issuerLocal then
      match IssuerElementTree.parse c with
      | .error er => .error er
      | .ok i => respParseChildren st { r with issuer := some i } cs
    else if getLocalPart c.tag = statusLocal then
      match StatusElementTree.parse c with
      | .error er => .error er
      | .ok s => respParseChildren st { r with status := some s } cs
    else if getLocalPart c.tag = subjectLocal then
      match SubjectElementTree.parse c with
      | .error er => .error er
      | .ok s => respParseChildren st { r with subject := some s } cs
    else if getLocalPart c.tag = assertionLocal then .error .attributeError
    else .error .unrecognisedChild

/-- `ResponseElementTree.parse`: local-name check; the `Version`,
`IssueInstant`, `ID` and `InResponseTo` attributes are fetched in that
order with a missing-attribute error for the first absent one; then the
version is checked against 2.0 (`NotImplementedError` otherwise); then the
issue instant is converted and the children are dispatched. -/
def ResponseElementTree.parse (st : FactoryMaps) (e : XMLElem) : Except PErr Response :=
  if getLocalPart e.tag ≠ responseLocal then .error .wrongElement
  else
    match getAttr e.attrib versionAttrName with
    | none => .error .missingAttribute
    | some ver =>
      match getAttr e.attrib issueInstantAttrName with
      | none => .error .missingAttribute
      | some instantStr =>
        match getAttr e.attrib idAttrName with
        | none => .error .missingAttribute
        | some idv =>
          match getAttr e.attrib inResponseToAttrName with
          | none => .error .missingAttribute
          | some irt =>
            if ver ≠ version20 then .error .unsupportedVersion
            else
              match str2Datetime instantStr with
              | none => .error .valueError
              | some instant =>
                respParseChildren st
                  { id := idv, issueInstant := instant, version := ver,
                    inResponseTo := irt, issuer := none, status := none,
                    subject := none, assertions := [] }
                  e.children

/-- The decision callback built by
`TestAuthorisationServiceMiddleware.authzDecisionQueryFactory` in the test
module.  `now` is `datetime.utcnow()`, and `respId`/`assertId` are the two
`str(uuid4())` fresh identifiers, passed explicitly here.  Reading
`query.subject.nameID.format` when the query has no name identifier is a
Python `AttributeError`. -/
def authzDecisionQueryCb (query : AuthzDecisionQuery) (response : Response)
    (now : Nat) (respId assertId : String) : Except PErr Response :=
  match query.subject.nameID with
  | none => .error .attributeError
  | some n => .ok
      { response with
        issueInstant := now
        inResponseTo := query.id
        id := respId
        version := version20
        status := some { statusCode := some { value := some successURI },
                         statusMessage := some "Response created successfully" }
        assertions := response.assertions ++
          [{ id := assertId
             issueInstant := now
             version := version20
             issuer := some { format := some x509SubjectFormat, value := some issuerDN }
             subject := some { nameID := some { format := n.format, value := n.value } }
             advice := none
             conditions := some { notBefore := now, notOnOrAfter := now + 60 * 60 * 8, conditions := [] }
             statements := []
             authnStatements := []
             authzDecisionStatements :=
               [{ decision := .permit
                  resource := some resourceURI
                  actions := [{ ns := some ghppNSURI, value := some httpGetAction }] }]
             attributeStatements := [] }] }

/-
Validity predicates used by the round-trip results.  They collect exactly
the conditions under which the source's `create` output reparses to the
same object: version 2.0, mandatory sub-objects present, text values
invariant under `strip()`, and the optional name attributes absent or
non-empty (Python truthiness drops empty strings on `create`).
-/

/-- Present and invariant under `pyStrip`. -/
def strippedSome : Option String → Bool
  | none => false
  | some v => pyStrip v == v

def issuerOk (i : Issuer) : Bool := i.format.isSome && strippedSome i.value

def nameIDOk (n : NameID) : Bool := n.format.isSome && strippedSome n.value

/-- Absent, or a non-empty string (Python truthiness keeps it). -/
def nameAttrOk : Option String → Bool
  | none => true
  | some s => !(s == "")

/-- Round-trippable attribute: truthiness-safe name attributes and no
attribute values (in-memory attribute values do not reparse because
`create` stores the type attribute under the prefixed key `xsi:type`
while `parse` looks it up under its combined-tag key). -/
def attributeOk (a : Attribute) : Bool :=
  nameAttrOk a.name && nameAttrOk a.friendlyName && nameAttrOk a.nameFormat &&
    a.attributeValues.isEmpty

def aqValid (q : AttributeQuery) : Bool :=
  q.version == version20 &&
  (match q.issuer with | some i => issuerOk i | none => false) &&
  (match q.subject with
   | some s => match s.nameID with | some n => nameIDOk n | none => false
   | none => false) &&
  q.attributes.all attributeOk

def statusOkB : Option Status → Bool
  | some st =>
    (match st.statusCode with | some sc => strippedSome sc.value | none => false) &&
      st.statusMessage.isNone
  | none => false

/-- Round-trippable response: version 2.0, issuer and status present and
reparsable, no subject (never serialised by `create`), no status message
(never reparsed), and no assertions (`AssertionElementTree` has no
`parse`). -/
def respValid (r : Response) : Bool :=
  r.version == version20 &&
  (match r.issuer with | some i => issuerOk i | none => false) &&
  statusOkB r.status &&
  r.subject.isNone &&
  r.assertions.isEmpty

/-- Composition `parse ∘ create` for attribute queries, at the default
factory state. -/
def aqRoundTrip (q : AttributeQuery) : Except PErr AttributeQuery :=
  match AttributeQueryElementTree.create defaultMaps q with
  | .error er => .error er
  | .ok e => AttributeQueryElementTree.parse defaultMaps e

/-- Composition `parse ∘ create` for responses, at the default factory
state. -/
def respRoundTrip (r : Response) : Except PErr Response :=
  match ResponseElementTree.create defaultMaps r with
  | .error er => .error er
  | .ok e => ResponseElementTree.parse defaultMaps e

/-
Helper lemmas.
-/

theorem getAttr_nil (k : String) : getAttr [] k = none := rfl

theorem getAttr_cons_self (k : String) (v : String) (rest : List (String × String)) :
    getAttr ((k, v) :: rest) k = some v := by
  simp [getAttr, lookupAssoc]

theorem getAttr_cons_ne (k k' v : String) (rest : List (String × String)) (h : k ≠ k') :
    getAttr ((k, v) :: rest) k' = getAttr rest k' := by
  simp [getAttr, lookupAssoc, h]

theorem lookupAssoc_upd_self {κ α : Type} [DecidableEq κ] (l : List (κ × α)) (k : κ) (v : α) :
    lookupAssoc (updAssoc l k v) k = some v := by
  induction l with
  | nil => simp [updAssoc, lookupAssoc]
  | cons p rest ih =>
    by_cases h : p.1 = k
    · simp [updAssoc, h, lookupAssoc]
    · simp [updAssoc, h, lookupAssoc, ih]

theorem lookupAssoc_upd_ne {κ α : Type} [DecidableEq κ] (l : List (κ × α)) (k k' : κ) (v : α)
    (h : k ≠ k') : lookupAssoc (updAssoc l k v) k' = lookupAssoc l k' := by
  induction l with
  | nil => simp [updAssoc, lookupAssoc, h]
  | cons p rest ih =>
    by_cases hp : p.1 = k
    · simp [updAssoc, hp, lookupAssoc, h, Ne.symm h]
    · simp [updAssoc, hp, lookupAssoc, ih]

theorem exceptMapM_map {α β : Type} (f : α → Except PErr β) (g : α → β) (l : List α)
    (h : ∀ a ∈ l, f a = .ok (g a)) : exceptMapM f l = .ok (l.map g) := by
  induction l with
  | nil => rfl
  | cons a as ih =>
    simp only [exceptMapM, h a (List.mem_cons_self a as)]
    rw [ih (fun x hx => h x (List.mem_cons_of_mem a hx))]
    rfl

theorem exceptMapM_exists_ok {α β : Type} (f : α → Except PErr β) (l : List α)
    (h : ∀ a ∈ l, ∃ b, f a = .ok b) : ∃ bs, exceptMapM f l = .ok bs := by
  induction l with
  | nil => exact ⟨[], rfl⟩
  | cons a as ih =>
    rcases h a (List.mem_cons_self a as) with ⟨b, hb⟩
    rcases ih (fun x hx => h x (List.mem_cons_of_mem a hx)) with ⟨bs, hbs⟩
    exact ⟨b :: bs, by simp [exceptMapM, hb, hbs]⟩

theorem getAttr_truthy_ne (key k : String) (o : Option String)
    (rest : List (String × String)) (h : key ≠ k) :
    getAttr (truthyAttrEntry key o ++ rest) k = getAttr rest k := by
  rcases o with _ | s
  · simp [truthyAttrEntry]
  · by_cases hs : s = ""
    · simp [truthyAttrEntry, hs]
    · simp only [truthyAttrEntry, if_neg hs, List.cons_append, List.nil_append]
      exact getAttr_cons_ne key k s rest h

theorem getAttr_truthy_self (key : String) (o : Option String)
    (rest : List (String × String)) (ho : nameAttrOk o = true)
    (hrest : getAttr rest key = none) :
    getAttr (truthyAttrEntry key o ++ rest) key = o := by
  rcases o with _ | s
  · simpa [truthyAttrEntry] using hrest
  · have hs : s ≠ "" := by simpa [nameAttrOk] using ho
    simp only [truthyAttrEntry, if_neg hs, List.cons_append, List.nil_append]
    exact getAttr_cons_self key s rest

theorem getAttr_truthy_none (key k : String) (o : Option String) (h : key ≠ k) :
    getAttr (truthyAttrEntry key o) k = none := by
  rcases o with _ | s
  · rfl
  · by_cases hs : s = ""
    · simp [truthyAttrEntry, hs, getAttr, lookupAssoc]
    · simp [truthyAttrEntry, hs, getAttr, lookupAssoc, h]

theorem getAttr_truthy_last (key : String) (o : Option String) (ho : nameAttrOk o = true) :
    getAttr (truthyAttrEntry key o) key = o := by
  rcases o with _ | s
  · rfl
  · have hs : s ≠ "" := by simpa [nameAttrOk] using ho
    simp [truthyAttrEntry, hs, getAttr, lookupAssoc]

theorem lp_issuerTag : getLocalPart issuerTag = issuerLocal := rfl
theorem lp_nameIDTag : getLocalPart nameIDTag = nameIDLocal := rfl
theorem lp_subjectTag : getLocalPart subjectTag = subjectLocal := rfl
theorem lp_statusCodeTag : getLocalPart statusCodeTag = statusCodeLocal := rfl
theorem lp_statusTag : getLocalPart statusTag = statusLocal := rfl
theorem lp_assertionTag : getLocalPart assertionTag = assertionLocal := rfl
theorem lp_attributeTag : getLocalPart attributeTag = attributeLocal := rfl
theorem lp_attributeQueryTag : getLocalPart attributeQueryTag = attributeQueryLocal := rfl
theorem lp_responseTag : getLocalPart responseTag = responseLocal := rfl

theorem issuer_roundTrip (i : Issuer) (h : issuerOk i = true) :
    IssuerElementTree.parse (IssuerElementTree.create i) = .ok i := by
  obtain ⟨fo, vo⟩ := i
  rcases fo with _ | f
  · simp [issuerOk] at h
  rcases vo with _ | v
  · simp [issuerOk, strippedSome] at h
  have hv : pyStrip v = v := by simpa [issuerOk, strippedSome] using h
  simp [IssuerElementTree.create, IssuerElementTree.parse, lp_issuerTag,
        getAttr_cons_self, hv]

theorem nameID_roundTrip (n : NameID) (h : nameIDOk n = true) :
    NameIdElementTree.parse (NameIdElementTree.create n) = .ok n := by
  obtain ⟨fo, vo⟩ := n
  rcases fo with _ | f
  · simp [nameIDOk] at h
  rcases vo with _ | v
  · simp [nameIDOk, strippedSome] at h
  have hv : pyStrip v = v := by simpa [nameIDOk, strippedSome] using h
  simp [NameIdElementTree.create, NameIdElementTree.parse, lp_nameIDTag,
        getAttr_cons_self, hv]

/-- Element produced by `SubjectElementTree.create` for a subject with a
name identifier. -/
def subjElemPure (n : NameID) : XMLElem :=
  { tag := subjectTag, attrib := [], text := none, children := [NameIdElementTree.create n] }

theorem subject_roundTrip (n : NameID) (h : nameIDOk n = true) :
    SubjectElementTree.parse (subjElemPure n) = .ok ⟨some n⟩ := by
  simp [subjElemPure, SubjectElementTree.parse, lp_subjectTag, nameID_roundTrip n h]

theorem statusCode_roundTrip (sc : StatusCode) (h : strippedSome sc.value = true) :
    StatusCodeElementTree.parse (StatusCodeElementTree.create sc) = .ok sc := by
  obtain ⟨vo⟩ := sc
  rcases vo with _ | v
  · simp [strippedSome] at h
  have hv : pyStrip v = v := by simpa [strippedSome] using h
  simp [StatusCodeElementTree.create, StatusCodeElementTree.parse, lp_statusCodeTag, hv]

/-- Element produced by `StatusElementTree.create` for a status with a
status code. -/
def statusElemPure (sc : StatusCode) : XMLElem :=
  { tag := statusTag, attrib := [], text := none, children := [StatusCodeElementTree.create sc] }

theorem status_roundTrip (sc : StatusCode) (h : strippedSome sc.value = true) :
    StatusElementTree.parse (statusElemPure sc) = .ok ⟨some sc, none⟩ := by
  simp [statusElemPure, StatusElementTree.parse, lp_statusTag, statusCode_roundTrip sc h]

/-- Element produced by `AttributeElementTree.create` for an attribute with
no attribute values. -/
def attrElemPure (a : Attribute) : XMLElem :=
  { tag := attributeTag
    attrib := truthyAttrEntry friendlyNameAttrName a.friendlyName ++
              (truthyAttrEntry nameAttrName a.name ++
               truthyAttrEntry nameFormatAttrName a.nameFormat)
    text := none
    children := [] }

theorem attributeOk_vals (a : Attribute) (h : attributeOk a = true) :
    a.attributeValues = [] := by
  rcases a with ⟨nm, fn, nf, vals⟩
  rcases vals with _ | ⟨v, vs⟩
  · rfl
  · simp [attributeOk] at h

theorem attributeCreate_ok (st : FactoryMaps) (a : Attribute) (h : a.attributeValues = []) :
    AttributeElementTree.create st a = .ok (attrElemPure a) := by
  simp [AttributeElementTree.create, h, exceptMapM, attrElemPure]

theorem attribute_roundTrip (st : FactoryMaps) (a : Attribute) (h : attributeOk a = true) :
    AttributeElementTree.parse st (attrElemPure a) = .ok a := by
  obtain ⟨nm, fn, nf, vals⟩ := a
  have hvals : vals = [] := attributeOk_vals _ h
  subst hvals
  simp only [attributeOk, List.isEmpty_nil, Bool.and_true, Bool.and_eq_true] at h
  obtain ⟨⟨h1, h2⟩, h3⟩ := h
  have hFN : getAttr (truthyAttrEntry friendlyNameAttrName fn ++
      (truthyAttrEntry nameAttrName nm ++ truthyAttrEntry nameFormatAttrName nf))
      friendlyNameAttrName = fn := by
    refine getAttr_truthy_self _ _ _ h2 ?_
    rw [getAttr_truthy_ne _ _ _ _ (by decide)]
    exact getAttr_truthy_none _ _ _ (by decide)
  have hN : getAttr (truthyAttrEntry friendlyNameAttrName fn ++
      (truthyAttrEntry nameAttrName nm ++ truthyAttrEntry nameFormatAttrName nf))
      nameAttrName = nm := by
    rw [getAttr_truthy_ne _ _ _ _ (by decide)]
    refine getAttr_truthy_self _ _ _ h1 ?_
    exact getAttr_truthy_none _ _ _ (by decide)
  have hNF : getAttr (truthyAttrEntry friendlyNameAttrName fn ++
      (truthyAttrEntry nameAttrName nm ++ truthyAttrEntry nameFormatAttrName nf))
      nameFormatAttrName = nf := by
    rw [getAttr_truthy_ne _ _ _ _ (by decide), getAttr_truthy_ne _ _ _ _ (by decide)]
    exact getAttr_truthy_last _ _ h3
  simp [attrElemPure, AttributeElementTree.parse, lp_attributeTag, exceptMapM,
        hFN, hN, hNF]

theorem aqParseChildren_attrs (st : FactoryMaps) (attrs : List Attribute)
    (h : ∀ a ∈ attrs, attributeOk a = true) :
    ∀ q : AttributeQuery, aqParseChildren st q (attrs.map attrElemPure) =
      .ok { q with attributes := q.attributes ++ attrs } := by
  induction attrs with
  | nil => intro q; simp [aqParseChildren]
  | cons a as ih =>
    intro q
    simp only [List.map_cons, aqParseChildren]
    rw [show getLocalPart (attrElemPure a).tag = attributeLocal from rfl]
    rw [if_neg (by decide : ¬(attributeLocal = issuerLocal)),
        if_neg (by decide : ¬(attributeLocal = subjectLocal)),
        if_pos rfl]
    rw [attribute_roundTrip st a (h a (List.mem_cons_self a as))]
    try dsimp only
    rw [ih (fun x hx => h x (List.mem_cons_of_mem a hx))]
    simp [List.append_assoc]

theorem aq_roundTrip_ok (q : AttributeQuery) (h : aqValid q = true) :
    aqRoundTrip q = .ok q := by
  obtain ⟨qid, qinst, qver, qiss, qsubj, qattrs⟩ := q
  rcases qiss with _ | i
  · simp [aqValid] at h
  rcases qsubj with _ | s
  · simp [aqValid] at h
  obtain ⟨sn⟩ := s
  rcases sn with _ | n
  · simp [aqValid] at h
  simp only [aqValid, Bool.and_eq_true, beq_iff_eq, List.all_eq_true] at h
  obtain ⟨⟨⟨hver, hiss⟩, hn⟩, hattrs⟩ := h
  subst hver
  have hc : AttributeQueryElementTree.create defaultMaps
      ⟨qid, qinst, version20, some i, some ⟨some n⟩, qattrs⟩ = .ok
      { tag := attributeQueryTag
        attrib := [(idAttrName, qid), (issueInstantAttrName, datetime2Str qinst),
                   (versionAttrName, version20)]
        text := none
        children := IssuerElementTree.create i :: subjElemPure n :: qattrs.map attrElemPure } := by
    simp only [AttributeQueryElementTree.create, SubjectElementTree.create]
    rw [exceptMapM_map _ attrElemPure _
      (fun a ha => attributeCreate_ok defaultMaps a (attributeOk_vals a (hattrs a ha)))]
    rfl
  unfold aqRoundTrip
  rw [hc]
  try dsimp only
  simp only [AttributeQueryElementTree.parse]
  rw [show getLocalPart attributeQueryTag = attributeQueryLocal from rfl]
  rw [if_neg (by simp)]
  rw [getAttr_cons_ne _ _ _ _ (by decide), getAttr_cons_ne _ _ _ _ (by decide),
      getAttr_cons_self]
  try dsimp only
  rw [getAttr_cons_ne _ _ _ _ (by decide), getAttr_cons_self]
  try dsimp only
  rw [getAttr_cons_self]
  try dsimp only
  rw [if_neg (by simp)]
  rw [str2Datetime_datetime2Str]
  try dsimp only
  simp only [aqParseChildren]
  rw [show getLocalPart (IssuerElementTree.create i).tag = issuerLocal from rfl]
  rw [if_pos rfl]
  rw [issuer_roundTrip i hiss]
  try dsimp only
  rw [show getLocalPart (subjElemPure n).tag = subjectLocal from rfl]
  rw [if_neg (by decide : ¬(subjectLocal = issuerLocal)), if_pos rfl]
  rw [subject_roundTrip n hn]
  try dsimp only
  rw [aqParseChildren_attrs defaultMaps qattrs hattrs]
  simp

theorem resp_roundTrip_ok (r : Response) (h : respValid r = true) :
    respRoundTrip r = .ok r := by
  obtain ⟨rid, rinst, rver, rirt, riss, rstat, rsubj, rass⟩ := r
  rcases riss with _ | i
  · simp [respValid] at h
  rcases rstat with _ | st
  · simp [respValid, statusOkB] at h
  obtain ⟨stc, stm⟩ := st
  rcases stc with _ | sc
  · simp [respValid, statusOkB] at h
  rcases rsubj with _ | rs
  swap
  · simp [respValid] at h
  rcases rass with _ | ⟨a, as⟩
  swap
  · simp [respValid] at h
  simp only [respValid, statusOkB, Bool.and_eq_true, beq_iff_eq, List.all_eq_true] at h
  obtain ⟨⟨⟨⟨hver, hiss⟩, hsc, hstm⟩, -⟩, -⟩ := h
  subst hver
  have hstm' : stm = none := by
    rcases stm with _ | m
    · rfl
    · simp at hstm
  subst hstm'
  have hc : ResponseElementTree.create defaultMaps
      ⟨rid, rinst, version20, rirt, some i, some ⟨some sc, none⟩, none, []⟩ = .ok
      { tag := responseTag
        attrib := [(idAttrName, rid), (issueInstantAttrName, datetime2Str rinst),
                   (inResponseToAttrName, rirt), (versionAttrName, version20)]
        text := none
        children := [IssuerElementTree.create i, statusElemPure sc] } := by
    simp [ResponseElementTree.create, StatusElementTree.create, exceptMapM, statusElemPure]
  unfold respRoundTrip
  rw [hc]
  try dsimp only
  simp only [ResponseElementTree.parse]
  rw [show getLocalPart responseTag = responseLocal from rfl]
  rw [if_neg (by simp)]
  rw [getAttr_cons_ne _ _ _ _ (by decide), getAttr_cons_ne _ _ _ _ (by decide),
      getAttr_cons_ne _ _ _ _ (by decide), getAttr_cons_self]
  try dsimp only
  rw [getAttr_cons_ne _ _ _ _ (by decide), getAttr_cons_self]
  try dsimp only
  rw [getAttr_cons_self]
  try dsimp only
  rw [getAttr_cons_ne _ _ _ _ (by decide), getAttr_cons_ne _ _ _ _ (by decide),
      getAttr_cons_self]
  try dsimp only
  rw [if_neg (by simp)]
  rw [str2Datetime_datetime2Str]
  try dsimp only
  simp only [respParseChildren]
  rw [show getLocalPart (IssuerElementTree.create i).tag = issuerLocal from rfl]
  rw [if_pos rfl]
  rw [issuer_roundTrip i hiss]
  try dsimp only
  rw [show getLocalPart (statusElemPure sc).tag = statusLocal from rfl]
  rw [if_neg (by decide : ¬(statusLocal = issuerLocal)), if_pos rfl]
  rw [status_roundTrip sc hsc]

theorem aqParseChildren_ne_ok (st : FactoryMaps) :
    ∀ (cs : List XMLElem) (q r : AttributeQuery),
      (∃ c ∈ cs, getLocalPart c.tag ≠ issuerLocal ∧ getLocalPart c.tag ≠ subjectLocal ∧
        getLocalPart c.tag ≠ attributeLocal) →
      aqParseChildren st q cs ≠ .ok r := by
  intro cs
  induction cs with
  | nil =>
    intro q r h
    rcases h with ⟨c, hc, -⟩
    exact absurd hc (List.not_mem_nil c)
  | cons c0 cs ih =>
    intro q r h hok
    rcases h with ⟨c, hc, hns⟩
    rcases List.mem_cons.mp hc with hceq | hmem
    · subst hceq
      simp only [aqParseChildren, if_neg hns.1, if_neg hns.2.1, if_neg hns.2.2] at hok
      exact absurd hok (by simp)
    · simp only [aqParseChildren] at hok
      by_cases h1 : getLocalPart c0.tag = issuerLocal
      · rw [if_pos h1] at hok
        cases hp : IssuerElementTree.parse c0 with
        | error er => rw [hp] at hok; exact absurd hok (by simp)
        | ok i =>
          rw [hp] at hok
          exact ih _ r ⟨c, hmem, hns⟩ hok
      · rw [if_neg h1] at hok
        by_cases h2 : getLocalPart c0.tag = subjectLocal
        · rw [if_pos h2] at hok
          cases hp : SubjectElementTree.parse c0 with
          | error er => rw [hp] at hok; exact absurd hok (by simp)
          | ok s =>
            rw [hp] at hok
            exact ih _ r ⟨c, hmem, hns⟩ hok
        · rw [if_neg h2] at hok
          by_cases h3 : getLocalPart c0.tag = attributeLocal
          · rw [if_pos h3] at hok
            cases hp : AttributeElementTree.parse st c0 with
            | error er => rw [hp] at hok; exact absurd hok (by simp)
            | ok a =>
              rw [hp] at hok
              exact ih _ r ⟨c, hmem, hns⟩ hok
          · rw [if_neg h3] at hok
            exact absurd hok (by simp)

theorem respParseChildren_ne_ok (st : FactoryMaps) :
    ∀ (cs : List XMLElem) (q r : Response),
      (∃ c ∈ cs, getLocalPart c.tag ≠ issuerLocal ∧ getLocalPart c.tag ≠ statusLocal ∧
        getLocalPart c.tag ≠ subjectLocal) →
      respParseChildren st q cs ≠ .ok r := by
  intro cs
  induction cs with
  | nil =>
    intro q r h
    rcases h with ⟨c, hc, -⟩
    exact absurd hc (List.not_mem_nil c)
  | cons c0 cs ih =>
    intro q r h hok
    rcases h with ⟨c, hc, hns⟩
    rcases List.mem_cons.mp hc with hceq | hmem
    · subst hceq
      simp only [respParseChildren, if_neg hns.1, if_neg hns.2.1, if_neg hns.2.2] at hok
      by_cases h4 : getLocalPart c.tag = assertionLocal
      · rw [if_pos h4] at hok; exact absurd hok (by simp)
      · rw [if_neg h4] at hok; exact absurd hok (by simp)
    · simp only [respParseChildren] at hok
      by_cases h1 : getLocalPart c0.tag = issuerLocal
      · rw [if_pos h1] at hok
        cases hp : IssuerElementTree.parse c0 with
        | error er => rw [hp] at hok; exact absurd hok (by simp)
        | ok i =>
          rw [hp] at hok
          exact ih _ r ⟨c, hmem, hns⟩ hok
      · rw [if_neg h1] at hok
        by_cases h2 : getLocalPart c0.tag = statusLocal
        · rw [if_pos h2] at hok
          cases hp : StatusElementTree.parse c0 with
          | error er => rw [hp] at hok; exact absurd hok (by simp)
          | ok s =>
            rw [hp] at hok
            exact ih _ r ⟨c, hmem, hns⟩ hok
        · rw [if_neg h2] at hok
          by_cases h3 : getLocalPart c0.tag = subjectLocal
          · rw [if_pos h3] at hok
            cases hp : SubjectElementTree.parse c0 with
            | error er => rw [hp] at hok; exact absurd hok (by simp)
            | ok s =>
              rw [hp] at hok
              exact ih _ r ⟨c, hmem, hns⟩ hok
          · rw [if_neg h3] at hok
            by_cases h4 : getLocalPart c0.tag = assertionLocal
            · rw [if_pos h4] at hok; exact absurd hok (by simp)
            · rw [if_neg h4] at hok; exact absurd hok (by simp)

theorem aqParse_ne_ok (st : FactoryMaps) (e : XMLElem) (r : AttributeQuery)
    (h : ∃ c ∈ e.children, getLocalPart c.tag ≠ issuerLocal ∧
      getLocalPart c.tag ≠ subjectLocal ∧ getLocalPart c.tag ≠ attributeLocal) :
    AttributeQueryElementTree.parse st e ≠ .ok r := by
  intro hok
  simp only [AttributeQueryElementTree.parse] at hok
  repeat' split at hok
  all_goals try exact absurd hok (by simp)
  exact aqParseChildren_ne_ok st e.children _ r h hok

theorem respParse_ne_ok (st : FactoryMaps) (e : XMLElem) (r : Response)
    (h : ∃ c ∈ e.children, getLocalPart c.tag ≠ issuerLocal ∧
      getLocalPart c.tag ≠ statusLocal ∧ getLocalPart c.tag ≠ subjectLocal) :
    ResponseElementTree.parse st e ≠ .ok r := by
  intro hok
  simp only [ResponseElementTree.parse] at hok
  repeat' split at hok
  all_goals try exact absurd hok (by simp)
  exact respParseChildren_ne_ok st e.children _ r h hok

/-- C1.  The claim as frozen fails on the code (see the counterexample:
responses carrying assertions cannot be reparsed); this is the amended
round-trip: for every AttributeQuery valid per `aqValid` (version 2.0,
issuer and subject present with strip-invariant text values, truthiness-safe
name attributes, and no attribute values) and every Response valid per
`respValid` (version 2.0, issuer and status present with strip-invariant
values, no subject, no status message, and no assertions),
`parse (create Q) = Q` holds field for field, ordered collections
included. -/
theorem c1_round_trip_amended (q : AttributeQuery) (r : Response)
    (hq : aqValid q = true) (hr : respValid r = true) :
    aqRoundTrip q = .ok q ∧ respRoundTrip r = .ok r :=
  ⟨aq_roundTrip_ok q hq, resp_roundTrip_ok r hr⟩

/-- Well-formed version-2.0 response carrying one minimal (serialisable)
assertion. -/
def respWithAssertion : Response :=
  { id := "resp-01", issueInstant := 3, version := "2.0", inResponseTo := "qry-01",
    issuer := some { format := some "urn:esg:issuer", value := some "/O=Test/CN=A" },
    status := some { statusCode := some { value := some "urn:success" }, statusMessage := none },
    subject := none,
    assertions := [{ id := "assert-01", issueInstant := 3, version := "2.0", issuer := none,
                     subject := none, advice := none, conditions := none, statements := [],
                     authnStatements := [], authzDecisionStatements := [],
                     attributeStatements := [] }] }

/-- C1 counterexample: `respWithAssertion` is a valid Response (version 2.0,
all scalar fields well formed) whose single assertion serialises without
error, yet `parse (create Q)` is a Python `AttributeError` — the Assertion
child is dispatched to the non-existent `AssertionElementTree.parse` — so
it is not equal to `Q` and the claim as frozen is false. -/
theorem c1_round_trip_counterexample :
    respRoundTrip respWithAssertion = .error .attributeError := rfl

/-- Concrete valid attribute query exercising the attribute list. -/
def aqWit : AttributeQuery :=
  { id := "qry-02", issueInstant := 77, version := "2.0",
    issuer := some { format := some "urn:x509", value := some "/O=Site A/CN=PEP" },
    subject := some { nameID := some { format := some "urn:esg:openid", value := some "https://localhost/phil" } },
    attributes := [{ name := some "urn:esg:first:name", friendlyName := some "FirstName",
                     nameFormat := none, attributeValues := [] }] }

/-- Concrete valid assertion-free response. -/
def respWit : Response :=
  { id := "resp-02", issueInstant := 78, version := "2.0", inResponseTo := "qry-02",
    issuer := some { format := some "urn:x509", value := some "/O=Test/CN=B" },
    status := some { statusCode := some { value := some "urn:success" }, statusMessage := none },
    subject := none, assertions := [] }

theorem c1_round_trip_witness :
    aqValid aqWit = true ∧ respValid respWit = true ∧
    aqRoundTrip aqWit = .ok aqWit ∧ respRoundTrip respWit = .ok respWit :=
  ⟨rfl, rfl, (c1_round_trip_amended aqWit respWit rfl rfl).1,
    (c1_round_trip_amended aqWit respWit rfl rfl).2⟩

/-- C2: the decision callback installed by the authorisation service stub
upholds the correlation contract.  For every query with a name identifier,
every initial response, every current time, and every pair of freshly
generated identifiers — `str(uuid4())` freshness is modelled by the
hypothesis that the generated response id differs from the query id — the
produced response `R` satisfies `R.inResponseTo = Q.id` and `R.id ≠ Q.id`. -/
theorem c2_correlation_invariant (q : AuthzDecisionQuery) (r0 : Response)
    (now : Nat) (respId assertId : String) (n : NameID)
    (hn : q.subject.nameID = some n) (hfresh : respId ≠ q.id) :
    ∃ r, authzDecisionQueryCb q r0 now respId assertId = .ok r ∧
      r.inResponseTo = q.id ∧ r.id ≠ q.id := by
  simp only [authzDecisionQueryCb, hn]
  exact ⟨_, rfl, rfl, hfresh⟩

/-- Concrete authorisation decision query for the C2 witness. -/
def adqWit : AuthzDecisionQuery :=
  { id := "q-id-1", issueInstant := 0, version := "2.0", issuer := none,
    subject := ⟨some ⟨some "urn:esg:openid", some "https://localhost/phil"⟩⟩,
    resource := some "http://localhost/dap/data/", actions := [] }

theorem c2_correlation_invariant_witness :
    ∃ r, authzDecisionQueryCb adqWit ⟨"", 0, "", "", none, none, none, []⟩ 9 "r-id-1" "a-id-1"
        = .ok r ∧ r.inResponseTo = adqWit.id ∧ r.id ≠ adqWit.id :=
  c2_correlation_invariant adqWit ⟨"", 0, "", "", none, none, none, []⟩ 9 "r-id-1" "a-id-1"
    ⟨some "urn:esg:openid", some "https://localhost/phil"⟩ rfl (by decide)

/-- C6: `SubjectElementTree.parse` and `StatusElementTree.parse` enforce the
exactly-one-child rule: with a child count different from one they fail
with the structural cardinality error; with exactly one child that parses
as a NameID (respectively StatusCode) they return the object holding
exactly that parsed child. -/
theorem c6_single_child_parse :
    (∀ e : XMLElem, getLocalPart e.tag = subjectLocal → e.children.length ≠ 1 →
      SubjectElementTree.parse e = .error .badChildCardinality) ∧
    (∀ (e c : XMLElem) (n : NameID), getLocalPart e.tag = subjectLocal →
      e.children = [c] → NameIdElementTree.parse c = .ok n →
      SubjectElementTree.parse e = .ok ⟨some n⟩) ∧
    (∀ e : XMLElem, getLocalPart e.tag = statusLocal → e.children.length ≠ 1 →
      StatusElementTree.parse e = .error .badChildCardinality) ∧
    (∀ (e c : XMLElem) (sc : StatusCode), getLocalPart e.tag = statusLocal →
      e.children = [c] → StatusCodeElementTree.parse c = .ok sc →
      StatusElementTree.parse e = .ok ⟨some sc, none⟩) := by
  refine ⟨?_, ?_, ?_, ?_⟩
  · intro e h hlen
    unfold SubjectElementTree.parse
    rw [if_neg (by simp [h])]
    rcases hch : e.children with _ | ⟨c, _ | ⟨c2, cs2⟩⟩
    · rfl
    · exact absurd (by rw [hch]; rfl) hlen
    · rfl
  · intro e c n h hch hn
    unfold SubjectElementTree.parse
    rw [if_neg (by simp [h]), hch]
    try dsimp only
    rw [hn]
  · intro e h hlen
    unfold StatusElementTree.parse
    rw [if_neg (by simp [h])]
    rcases hch : e.children with _ | ⟨c, _ | ⟨c2, cs2⟩⟩
    · rfl
    · exact absurd (by rw [hch]; rfl) hlen
    · rfl
  · intro e c sc h hch hsc
    unfold StatusElementTree.parse
    rw [if_neg (by simp [h]), hch]
    try dsimp only
    rw [hsc]

theorem c6_single_child_parse_witness :
    SubjectElementTree.parse ⟨subjectTag, [], none, []⟩ = .error .badChildCardinality ∧
    SubjectElementTree.parse
        ⟨subjectTag, [], none, [⟨nameIDTag, [(formatAttrName, "urn:f")], some "user", []⟩]⟩
      = .ok ⟨some ⟨some "urn:f", some "user"⟩⟩ ∧
    StatusElementTree.parse
        ⟨statusTag, [], none, [⟨statusCodeTag, [], some "urn:s", []⟩,
                               ⟨statusCodeTag, [], some "urn:s", []⟩]⟩
      = .error .badChildCardinality ∧
    StatusElementTree.parse ⟨statusTag, [], none, [⟨statusCodeTag, [], some "urn:s", []⟩]⟩
      = .ok ⟨some ⟨some "urn:s"⟩, none⟩ :=
  ⟨c6_single_child_parse.1 _ rfl (by decide),
   c6_single_child_parse.2.1 _ _ ⟨some "urn:f", some "user"⟩ rfl rfl rfl,
   c6_single_child_parse.2.2.1 _ rfl (by decide),
   c6_single_child_parse.2.2.2 _ _ ⟨some "urn:s"⟩ rfl rfl rfl⟩

/-- C9.  spec-modelled: `AssertionElementTree` (etree.py lines 230-291)
defines only `create`; its base classes `Assertion` and
`IssueInstantXMLObject` are outside `src/` and per the spec are a plain
data class and a timestamp-conversion helper, neither providing `parse` —
so the `AssertionElementTree.parse(childElem)` dispatch in
`ResponseElementTree.parse` is a Python `AttributeError`: no element with
an Assertion-named child ever parses to a Response. -/
theorem c9_assertion_parse_missing (st : FactoryMaps) (e : XMLElem) (r : Response)
    (h : ∃ c ∈ e.children, getLocalPart c.tag = assertionLocal) :
    ResponseElementTree.parse st e ≠ .ok r := by
  rcases h with ⟨c, hc, hname⟩
  apply respParse_ne_ok st e r
  exact ⟨c, hc, by rw [hname]; decide, by rw [hname]; decide, by rw [hname]; decide⟩

/-- Response element carrying one Assertion child, for the C9 witness. -/
def respAssertElem : XMLElem :=
  ⟨responseTag,
   [(versionAttrName, "2.0"), (issueInstantAttrName, "1"), (idAttrName, "r"),
    (inResponseToAttrName, "q")],
   none, [⟨assertionTag, [], none, []⟩]⟩

theorem c9_assertion_parse_missing_witness :
    ResponseElementTree.parse defaultMaps respAssertElem ≠
      .ok ⟨"r", 1, "2.0", "q", none, none, none, []⟩ :=
  c9_assertion_parse_missing defaultMaps respAssertElem _
    ⟨⟨assertionTag, [], none, []⟩, by simp [respAssertElem], rfl⟩

/-- C10: `AttributeValueElementTreeFactory.__init__` aliases and mutates the
class-level `classMap`/`idMap` shared by all factory instances, so a custom
registration made while constructing one factory remains visible in every
factory constructed afterwards — including one constructed with empty
custom maps, from any prior shared state. -/
theorem c10_factory_state_leak (st : FactoryMaps) (n : Nat) (h : AVHandler)
    (i : String) (v : AttributeValue) (hv : classOf v = .customK n) :
    AttributeValueElementTreeFactory.call
      (AttributeValueElementTreeFactory.init
        (AttributeValueElementTreeFactory.init st [(.customK n, h)] [(i, h)]) [] [])
      (.inl v) = .ok h ∧
    AttributeValueElementTreeFactory.call
      (AttributeValueElementTreeFactory.init
        (AttributeValueElementTreeFactory.init st [(.customK n, h)] [(i, h)]) [] [])
      (.inr i) = .ok h := by
  constructor
  · simp only [AttributeValueElementTreeFactory.call,
      AttributeValueElementTreeFactory.init, List.foldl, hv]
    rw [lookupAssoc_upd_self]
  · simp only [AttributeValueElementTreeFactory.call,
      AttributeValueElementTreeFactory.init, List.foldl]
    rw [lookupAssoc_upd_self]

theorem c10_factory_state_leak_witness :
    AttributeValueElementTreeFactory.call
      (AttributeValueElementTreeFactory.init
        (AttributeValueElementTreeFactory.init defaultMaps
          [(.customK 3, xsGroupRoleHandler)] [("grp:custom", xsGroupRoleHandler)]) [] [])
      (.inl (.custom 3 "payload")) = .ok xsGroupRoleHandler ∧
    AttributeValueElementTreeFactory.call
      (AttributeValueElementTreeFactory.init
        (AttributeValueElementTreeFactory.init defaultMaps
          [(.customK 3, xsGroupRoleHandler)] [("grp:custom", xsGroupRoleHandler)]) [] [])
      (.inr "grp:custom") = .ok xsGroupRoleHandler :=
  c10_factory_state_leak defaultMaps 3 xsGroupRoleHandler "grp:custom" (.custom 3 "payload") rfl

/-- C3 (corrected).  The composite parses are strict — an AttributeQuery or
Response element containing a child with an unrecognised local name never
parses to an object, and Issuer parse fails with the structural
missing-attribute error when the `Format` attribute is absent — but the
leaf parses ignore child elements: an Issuer element with a well-formed
`Format` attribute and text parses successfully no matter what children it
carries (see the counterexample), so "every binding's parse fails on an
unrecognised child" holds only for the composite bindings. -/
theorem c3_strict_parse_amended :
    (∀ (st : FactoryMaps) (e : XMLElem) (r : AttributeQuery),
      (∃ c ∈ e.children, getLocalPart c.tag ≠ issuerLocal ∧
        getLocalPart c.tag ≠ subjectLocal ∧ getLocalPart c.tag ≠ attributeLocal) →
      AttributeQueryElementTree.parse st e ≠ .ok r) ∧
    (∀ (st : FactoryMaps) (e : XMLElem) (r : Response),
      (∃ c ∈ e.children, getLocalPart c.tag ≠ issuerLocal ∧
        getLocalPart c.tag ≠ statusLocal ∧ getLocalPart c.tag ≠ subjectLocal ∧
        getLocalPart c.tag ≠ assertionLocal) →
      ResponseElementTree.parse st e ≠ .ok r) ∧
    (∀ e : XMLElem, getLocalPart e.tag = issuerLocal →
      getAttr e.attrib formatAttrName = none →
      IssuerElementTree.parse e = .error .missingAttribute) ∧
    (∀ (e : XMLElem) (f t : String), getLocalPart e.tag = issuerLocal →
      getAttr e.attrib formatAttrName = some f → e.text = some t →
      IssuerElementTree.parse e = .ok ⟨some f, some (pyStrip t)⟩) := by
  refine ⟨?_, ?_, ?_, ?_⟩
  · intro st e r h
    exact aqParse_ne_ok st e r h
  · intro st e r h
    rcases h with ⟨c, hc, h1, h2, h3, -⟩
    exact respParse_ne_ok st e r ⟨c, hc, h1, h2, h3⟩
  · intro e h hfmt
    unfold IssuerElementTree.parse
    rw [if_neg (by simp [h]), hfmt]
  · intro e f t h hfmt htext
    unfold IssuerElementTree.parse
    rw [if_neg (by simp [h]), hfmt]
    try dsimp only
    rw [htext]

/-- Issuer element with a well-formed Format attribute and text but an
unrecognised child element. -/
def issuerElemWithChild : XMLElem :=
  ⟨issuerTag, [(formatAttrName, "urn:fmt")], some "CN=X",
   [⟨etTag saml20NS "Bogus", [], none, []⟩]⟩

/-- C3 counterexample: `issuerElemWithChild` contains a child with the
unrecognised local name `Bogus`, yet `IssuerElementTree.parse` returns a
fully populated Issuer — the leaf parses never inspect children — so the
claim as frozen ("for every element passed to a binding's parse that
contains a child element with an unrecognized local name ... parse fails")
is false. -/
theorem c3_strict_parse_counterexample :
    IssuerElementTree.parse issuerElemWithChild = .ok ⟨some "urn:fmt", some "CN=X"⟩ := rfl

/-- AttributeQuery element with an unrecognised child. -/
def aqElemBadChild : XMLElem :=
  ⟨attributeQueryTag,
   [(versionAttrName, "2.0"), (issueInstantAttrName, "1"), (idAttrName, "q")],
   none, [⟨etTag saml20NS "Strange", [], none, []⟩]⟩

/-- Response element with an unrecognised child. -/
def respElemBadChild : XMLElem :=
  ⟨responseTag,
   [(versionAttrName, "2.0"), (issueInstantAttrName, "1"), (idAttrName, "r"),
    (inResponseToAttrName, "q")],
   none, [⟨etTag saml20NS "Strange", [], none, []⟩]⟩

/-- Issuer element lacking the mandatory Format attribute. -/
def issuerElemNoFormat : XMLElem := ⟨issuerTag, [], some "CN=Y", []⟩

/-- Issuer element with Format, padded text and an extra child. -/
def issuerElemFmt : XMLElem :=
  ⟨issuerTag, [(formatAttrName, "urn:f")], some " CN=Z ",
   [⟨etTag saml20NS "Extra", [], none, []⟩]⟩

theorem c3_strict_parse_witness :
    AttributeQueryElementTree.parse defaultMaps aqElemBadChild ≠
      .ok ⟨"q", 1, "2.0", none, none, []⟩ ∧
    ResponseElementTree.parse defaultMaps respElemBadChild ≠
      .ok ⟨"r", 1, "2.0", "q", none, none, none, []⟩ ∧
    IssuerElementTree.parse issuerElemNoFormat = .error .missingAttribute ∧
    IssuerElementTree.parse issuerElemFmt = .ok ⟨some "urn:f", some "CN=Z"⟩ :=
  ⟨c3_strict_parse_amended.1 defaultMaps aqElemBadChild _
     ⟨⟨etTag saml20NS "Strange", [], none, []⟩, by simp [aqElemBadChild],
      by decide, by decide, by decide⟩,
   c3_strict_parse_amended.2.1 defaultMaps respElemBadChild _
     ⟨⟨etTag saml20NS "Strange", [], none, []⟩, by simp [respElemBadChild],
      by decide, by decide, by decide, by decide⟩,
   c3_strict_parse_amended.2.2.1 issuerElemNoFormat rfl rfl,
   c3_strict_parse_amended.2.2.2 issuerElemFmt "urn:f" " CN=Z " rfl rfl rfl⟩

/-- C4 (corrected).  With the four required attributes present, parsing a
Response element whose Version attribute is not `"2.0"` fails with the
version error (raised as `NotImplementedError` in the source, not as an
`XMLObjectParseError` subtype) no matter what the issue-instant string
holds and no matter what children are present: the version check precedes
the issue-instant conversion and the child dispatch.  It does NOT precede
the presence check of the `IssueInstant`/`ID`/`InResponseTo` attributes
(see the counterexample). -/
theorem c4_version_rejection_amended (st : FactoryMaps) (e : XMLElem)
    (ver ii idv irt : String)
    (h : getLocalPart e.tag = responseLocal)
    (hv : getAttr e.attrib versionAttrName = some ver)
    (hii : getAttr e.attrib issueInstantAttrName = some ii)
    (hid : getAttr e.attrib idAttrName = some idv)
    (hirt : getAttr e.attrib inResponseToAttrName = some irt)
    (hne : ver ≠ version20) :
    ResponseElementTree.parse st e = .error .unsupportedVersion := by
  unfold ResponseElementTree.parse
  rw [if_neg (by simp [h]), hv]
  try dsimp only
  rw [hii]
  try dsimp only
  rw [hid]
  try dsimp only
  rw [hirt]
  try dsimp only
  rw [if_pos hne]

/-- Response element with Version 1.1 whose InResponseTo attribute is
missing. -/
def respElemV11NoIRT : XMLElem :=
  ⟨responseTag,
   [(versionAttrName, "1.1"), (issueInstantAttrName, "5"), (idAttrName, "r-1")],
   none, []⟩

/-- C4 counterexample: parsing `respElemV11NoIRT` — a Response element whose
Version attribute is `"1.1"` — fails with the missing-attribute
`XMLObjectParseError` for `InResponseTo`, not with the version error: the
raw extraction of `issueInstant`/`id`/`inResponseTo` precedes the version
check, contradicting "the version check happens before any further field
extraction (issueInstant, id, inResponseTo, children)". -/
theorem c4_version_rejection_counterexample :
    ResponseElementTree.parse defaultMaps respElemV11NoIRT = .error .missingAttribute ∧
    PErr.missingAttribute ≠ PErr.unsupportedVersion := ⟨rfl, by decide⟩

/-- Response element with Version 1.1, all required attributes, a
non-numeric issue instant and an unrecognised child. -/
def respElemV11Full : XMLElem :=
  ⟨responseTag,
   [(versionAttrName, "1.1"), (issueInstantAttrName, "not-a-date"), (idAttrName, "r-1"),
    (inResponseToAttrName, "q-1")],
   none, [⟨etTag saml20NS "Junk", [], none, []⟩]⟩

theorem c4_version_rejection_witness :
    ResponseElementTree.parse defaultMaps respElemV11Full = .error .unsupportedVersion :=
  c4_version_rejection_amended defaultMaps respElemV11Full "1.1" "not-a-date" "r-1" "q-1"
    rfl rfl rfl rfl rfl (by decide)

/-- C5 (corrected).  For every assertion whose conditions extension list,
statements, authnStatements or authzDecisionStatements collection is
non-empty, `create` fails with the explicit `NotImplementedError` rather
than silently omitting data (given that the subject, when present, is
serialisable); and an assertion with these collections empty serialises
without error provided it also carries no advice (non-empty advice is a
further `NotImplementedError` gap, see the counterexample) and its
attribute statements use only factory-registered attribute-value types
(default registration: XSString). -/
theorem c5_not_implemented_amended :
    (∀ (st : FactoryMaps) (a : Assertion),
      (∀ s, a.subject = some s → s.nameID.isSome = true) →
      ((∃ c, a.conditions = some c ∧ c.conditions ≠ []) ∨ a.statements ≠ [] ∨
        a.authnStatements ≠ [] ∨ a.authzDecisionStatements ≠ []) →
      AssertionElementTree.create st a = .error .notImplementedGap) ∧
    (∀ a : Assertion, a.advice = none →
      (∀ s, a.subject = some s → s.nameID.isSome = true) →
      (∀ c, a.conditions = some c → c.conditions = []) →
      a.statements = [] → a.authnStatements = [] → a.authzDecisionStatements = [] →
      (∀ astmt ∈ a.attributeStatements, ∀ attr ∈ astmt.attributes,
        ∀ v ∈ attr.attributeValues, ∃ s, v = AttributeValue.xsstring s) →
      ∃ e, AssertionElementTree.create defaultMaps a = .ok e) := by
  constructor
  · intro st a hsubj hD
    have hse : ∃ x, optSubjectElems a.subject = .ok x := by
      rcases hs : a.subject with _ | s
      · exact ⟨[], rfl⟩
      · obtain ⟨sn⟩ := s
        have his := hsubj ⟨sn⟩ hs
        rcases sn with _ | n
        · simp at his
        · exact ⟨[⟨subjectTag, [], none, [NameIdElementTree.create n]⟩],
            by simp [optSubjectElems, SubjectElementTree.create]⟩
    obtain ⟨subjElems, hseq⟩ := hse
    have hcondCases : (∃ x, optConditionsElems a.conditions = .ok x) ∨
        optConditionsElems a.conditions = .error .notImplementedGap := by
      rcases hc : a.conditions with _ | c
      · exact Or.inl ⟨[], rfl⟩
      · rcases hcc : c.conditions with _ | ⟨x, xs⟩
        · exact Or.inl ⟨[⟨conditionsTag,
            [(notBeforeAttrName, datetime2Str c.notBefore),
             (notOnOrAfterAttrName, datetime2Str c.notOnOrAfter)], none, []⟩],
            by simp [optConditionsElems, ConditionsElementTree.create, hcc]⟩
        · exact Or.inr (by simp [optConditionsElems, ConditionsElementTree.create, hcc])
    unfold AssertionElementTree.create
    rw [hseq]
    try dsimp only
    by_cases hadv : a.advice.isSome
    · rw [if_pos hadv]
    · rw [if_neg hadv]
      rcases hcondCases with ⟨x, hok⟩ | herr
      swap
      · rw [herr]
      · rw [hok]
        try dsimp only
        rcases hst : a.statements with _ | ⟨u, us⟩
        swap
        · rfl
        · rcases han : a.authnStatements with _ | ⟨u2, us2⟩
          swap
          · rfl
          · rcases haz : a.authzDecisionStatements with _ | ⟨z, zs⟩
            swap
            · rfl
            · exfalso
              rcases hD with ⟨c, hc, hne⟩ | hne | hne | hne
              · rw [hc] at hok
                rcases hcc : c.conditions with _ | ⟨y, ys⟩
                · exact hne hcc
                · simp [optConditionsElems, ConditionsElementTree.create, hcc] at hok
              · exact hne hst
              · exact hne han
              · exact hne haz
  · intro a hadv hsubj hcond hst han haz hvals
    have hse : ∃ x, optSubjectElems a.subject = .ok x := by
      rcases hs : a.subject with _ | s
      · exact ⟨[], rfl⟩
      · obtain ⟨sn⟩ := s
        have his := hsubj ⟨sn⟩ hs
        rcases sn with _ | n
        · simp at his
        · exact ⟨[⟨subjectTag, [], none, [NameIdElementTree.create n]⟩],
            by simp [optSubjectElems, SubjectElementTree.create]⟩
    obtain ⟨subjElems, hseq⟩ := hse
    have hce : ∃ x, optConditionsElems a.conditions = .ok x := by
      rcases hc : a.conditions with _ | c
      · exact ⟨[], rfl⟩
      · have hcc := hcond c hc
        exact ⟨[⟨conditionsTag,
          [(notBeforeAttrName, datetime2Str c.notBefore),
           (notOnOrAfterAttrName, datetime2Str c.notOnOrAfter)], none, []⟩],
          by simp [optConditionsElems, ConditionsElementTree.create, hcc]⟩
    obtain ⟨condElems, hceq⟩ := hce
    have hstmts : ∃ x, exceptMapM (AttributeStatementElementTree.create defaultMaps)
        a.attributeStatements = .ok x := by
      apply exceptMapM_exists_ok
      intro astmt hastmt
      have hattrs : ∃ es, exceptMapM (AttributeElementTree.create defaultMaps)
          astmt.attributes = .ok es := by
        apply exceptMapM_exists_ok
        intro attr hattr
        have hvs : ∃ ves, exceptMapM (avCreateOne defaultMaps) attr.attributeValues
            = .ok ves := by
          apply exceptMapM_exists_ok
          intro v hv
          obtain ⟨s, rfl⟩ := hvals astmt hastmt attr hattr v hv
          exact ⟨_, rfl⟩
        obtain ⟨ves, hves⟩ := hvs
        exact ⟨{ tag := attributeTag,
                 attrib := truthyAttrEntry friendlyNameAttrName attr.friendlyName ++
                           (truthyAttrEntry nameAttrName attr.name ++
                            truthyAttrEntry nameFormatAttrName attr.nameFormat),
                 text := none, children := ves },
               by simp [AttributeElementTree.create, hves]⟩
      obtain ⟨es, hes⟩ := hattrs
      exact ⟨⟨attributeStatementTag, [], none, es⟩,
        by simp [AttributeStatementElementTree.create, hes]⟩
    obtain ⟨stElems, hsteq⟩ := hstmts
    refine ⟨{ tag := assertionTag,
              attrib := [(idAttrName, a.id),
                         (issueInstantAttrName, datetime2Str a.issueInstant),
                         (versionAttrName, a.version)],
              text := none,
              children := (match a.issuer with
                           | some i => [IssuerElementTree.create i]
                           | none => []) ++ subjElems ++ condElems ++ stElems }, ?_⟩
    unfold AssertionElementTree.create
    rw [hseq]
    try dsimp only
    rw [if_neg (by simp [hadv])]
    rw [hceq]
    try dsimp only
    rw [hst]
    try dsimp only
    rw [han]
    try dsimp only
    rw [haz]
    try dsimp only
    rw [hsteq]

/-- Assertion with the four collections of the claim all empty but a
non-empty advice field. -/
def assertionAdviceOnly : Assertion :=
  { id := "a-1", issueInstant := 2, version := "2.0", issuer := none, subject := none,
    advice := some (), conditions := none, statements := [], authnStatements := [],
    authzDecisionStatements := [], attributeStatements := [] }

/-- C5 counterexample: `assertionAdviceOnly` has empty conditions list,
statements, authnStatements and authzDecisionStatements, yet `create`
raises `NotImplementedError` (for the advice), so "an Assertion with all
these collections empty serializes without error" is false as frozen. -/
theorem c5_not_implemented_counterexample :
    AssertionElementTree.create defaultMaps assertionAdviceOnly = .error .notImplementedGap ∧
    assertionAdviceOnly.conditions = none ∧ assertionAdviceOnly.statements = [] ∧
    assertionAdviceOnly.authnStatements = [] ∧
    assertionAdviceOnly.authzDecisionStatements = [] :=
  ⟨rfl, rfl, rfl, rfl, rfl⟩

/-- Assertion with a non-empty generic statements collection. -/
def assertionWithStatement : Assertion :=
  { id := "a-2", issueInstant := 2, version := "2.0", issuer := none, subject := none,
    advice := none, conditions := none, statements := [()], authnStatements := [],
    authzDecisionStatements := [], attributeStatements := [] }

/-- Fully serialisable assertion exercising the attribute-statement path. -/
def assertionSerializable : Assertion :=
  { id := "a-3", issueInstant := 2, version := "2.0",
    issuer := some ⟨some "urn:f", some "CN=I"⟩,
    subject := some ⟨some ⟨some "urn:f", some "user"⟩⟩, advice := none,
    conditions := some ⟨10, 20, []⟩, statements := [], authnStatements := [],
    authzDecisionStatements := [],
    attributeStatements := [⟨[⟨some "urn:attr", none, none,
      [AttributeValue.xsstring (some "val")]⟩]⟩] }

theorem c5_not_implemented_witness :
    AssertionElementTree.create defaultMaps assertionWithStatement
      = .error .notImplementedGap ∧
    (∃ e, AssertionElementTree.create defaultMaps assertionSerializable = .ok e) :=
  ⟨c5_not_implemented_amended.1 defaultMaps assertionWithStatement
     (fun s hs => nomatch hs) (Or.inr (Or.inl (by decide))),
   c5_not_implemented_amended.2 assertionSerializable rfl
     (fun s hs => by simpa [assertionSerializable] using congrArg (fun o => (Option.map Subject.nameID o).join.isSome) hs)
     (fun c hc => by
        simp only [assertionSerializable] at hc
        cases hc
        rfl)
     rfl rfl rfl
     (by
        intro astmt ha attr hat v hv
        fin_cases ha
        fin_cases hat
        fin_cases hv
        exact ⟨some "val", rfl⟩)⟩

theorem factoryCall_inl_registered (st : FactoryMaps) (n : Nat) (h : AVHandler)
    (i : String) (v : AttributeValue) (hv : classOf v = .customK n) :
    AttributeValueElementTreeFactory.call
      (AttributeValueElementTreeFactory.init st [(.customK n, h)] [(i, h)])
      (.inl v) = .ok h := by
  simp only [AttributeValueElementTreeFactory.call,
    AttributeValueElementTreeFactory.init, List.foldl, hv]
  rw [lookupAssoc_upd_self]

theorem factoryCall_inr_registered (st : FactoryMaps) (n : Nat) (h : AVHandler)
    (i : String) :
    AttributeValueElementTreeFactory.call
      (AttributeValueElementTreeFactory.init st [(.customK n, h)] [(i, h)])
      (.inr i) = .ok h := by
  simp only [AttributeValueElementTreeFactory.call,
    AttributeValueElementTreeFactory.init, List.foldl]
  rw [lookupAssoc_upd_self]

/-- C7 (corrected).  Registering a new AttributeValue codec under a custom
class key and a custom type identifier makes resolution — and thereby the
per-value `create` step and the per-child `parse` step — succeed for that
variant, without modifying the resolution of the existing codecs; and when
the registration has never been made (the pristine class-level maps
`defaultMaps`), resolution of the custom variant or type id fails with the
no-codec `TypeError`, never falling back to a default.  The frozen claim's
stronger statement — that constructing a factory without the registration
causes resolution to fail — is false once any earlier factory registered
the codec, because the class-level maps are shared (see the
counterexample and C10). -/
theorem c7_codec_registration_amended :
    (∀ (st : FactoryMaps) (n : Nat) (h : AVHandler) (i : String) (v : AttributeValue),
      classOf v = .customK n →
      AttributeValueElementTreeFactory.call
        (AttributeValueElementTreeFactory.init st [(.customK n, h)] [(i, h)])
        (.inl v) = .ok h ∧
      AttributeValueElementTreeFactory.call
        (AttributeValueElementTreeFactory.init st [(.customK n, h)] [(i, h)])
        (.inr i) = .ok h) ∧
    (∀ (n : Nat) (h : AVHandler) (i : String) (s : Option String), i ≠ "xs:string" →
      AttributeValueElementTreeFactory.call
        (AttributeValueElementTreeFactory.init defaultMaps [(.customK n, h)] [(i, h)])
        (.inl (.xsstring s)) = .ok xsStringHandler ∧
      AttributeValueElementTreeFactory.call
        (AttributeValueElementTreeFactory.init defaultMaps [(.customK n, h)] [(i, h)])
        (.inr "xs:string") = .ok xsStringHandler) ∧
    (∀ (n : Nat) (v : AttributeValue), classOf v = .customK n →
      AttributeValueElementTreeFactory.call defaultMaps (.inl v) = .error .noCodec) ∧
    (∀ i : String, i ≠ "xs:string" →
      AttributeValueElementTreeFactory.call defaultMaps (.inr i) = .error .noCodec) ∧
    (∀ (st : FactoryMaps) (n : Nat) (h : AVHandler) (i : String) (v : AttributeValue)
       (ev : XMLElem), classOf v = .customK n → h.createFn v = .ok ev →
      avCreateOne (AttributeValueElementTreeFactory.init st [(.customK n, h)] [(i, h)]) v
        = .ok ev) ∧
    (∀ (st : FactoryMaps) (n : Nat) (h : AVHandler) (i : String) (c : XMLElem)
       (p : XMLElem → Except PErr AttributeValue) (v : AttributeValue),
      getLocalPart c.tag = attributeValueLocal → findTypeAttr c.attrib = some i →
      h.parseFn = some p → p c = .ok v →
      avParseOne (AttributeValueElementTreeFactory.init st [(.customK n, h)] [(i, h)]) c
        = .ok v) := by
  refine ⟨?_, ?_, ?_, ?_, ?_, ?_⟩
  · intro st n h i v hv
    exact ⟨factoryCall_inl_registered st n h i v hv, factoryCall_inr_registered st n h i⟩
  · intro n h i s hi
    constructor
    · simp only [AttributeValueElementTreeFactory.call,
        AttributeValueElementTreeFactory.init, List.foldl, classOf]
      rw [lookupAssoc_upd_ne _ _ _ _ (fun hcon => AVClassKey.noConfusion hcon)]
      rfl
    · simp only [AttributeValueElementTreeFactory.call,
        AttributeValueElementTreeFactory.init, List.foldl]
      rw [lookupAssoc_upd_ne _ _ _ _ hi]
      rfl
  · intro n v hv
    simp only [AttributeValueElementTreeFactory.call, defaultMaps, lookupAssoc, hv]
    rfl
  · intro i hi
    simp only [AttributeValueElementTreeFactory.call, defaultMaps, lookupAssoc]
    rw [if_neg (Ne.symm hi)]
  · intro st n h i v ev hv hcr
    unfold avCreateOne
    rw [factoryCall_inl_registered st n h i v hv]
    try dsimp only
    exact hcr
  · intro st n h i c p v htag hfind hpf hp
    unfold avParseOne
    rw [if_neg (by simp [htag]), hfind]
    try dsimp only
    rw [factoryCall_inr_registered st n h i]
    try dsimp only
    rw [hpf]
    try dsimp only
    exact hp

/-- Handler standing in for a user-supplied custom codec class. -/
def customHandlerEx : AVHandler := ⟨fun _ => .error .typeMismatch, none⟩

/-- C7 counterexample: after one factory has registered the custom codec,
a factory constructed WITHOUT that registration (empty custom maps) still
resolves the custom type identifier to the custom codec — the class-level
maps were mutated — so "constructing a factory without that registration
causes resolution of the variant/type-id to fail with a no-codec error" is
false as frozen. -/
theorem c7_codec_registration_counterexample :
    AttributeValueElementTreeFactory.call
      (AttributeValueElementTreeFactory.init
        (AttributeValueElementTreeFactory.init defaultMaps
          [(.customK 7, customHandlerEx)] [("myns:custom", customHandlerEx)])
        [] [])
      (.inr "myns:custom") = .ok customHandlerEx := rfl

/-- Concrete custom codec used by the C7 witness. -/
def esgCustomHandler : AVHandler :=
  ⟨fun _ => .ok ⟨attributeValueTag, [(groupAttrName, "g")], none, []⟩,
   some (fun _ => .ok (.custom 4 "decoded"))⟩

/-- AttributeValue child element carrying the custom type id. -/
def customAVElem : XMLElem :=
  ⟨attributeValueTag, [(etTag xsiNS "type", "esg:custom")], none, []⟩

theorem c7_codec_registration_witness :
    AttributeValueElementTreeFactory.call
      (AttributeValueElementTreeFactory.init defaultMaps
        [(.customK 4, esgCustomHandler)] [("esg:custom", esgCustomHandler)])
      (.inl (.custom 4 "x")) = .ok esgCustomHandler ∧
    AttributeValueElementTreeFactory.call
      (AttributeValueElementTreeFactory.init defaultMaps
        [(.customK 4, esgCustomHandler)] [("esg:custom", esgCustomHandler)])
      (.inr "xs:string") = .ok xsStringHandler ∧
    AttributeValueElementTreeFactory.call defaultMaps (.inl (.custom 4 "x"))
      = .error .noCodec ∧
    AttributeValueElementTreeFactory.call defaultMaps (.inr "esg:custom")
      = .error .noCodec ∧
    avCreateOne
      (AttributeValueElementTreeFactory.init defaultMaps
        [(.customK 4, esgCustomHandler)] [("esg:custom", esgCustomHandler)])
      (.custom 4 "x") = .ok ⟨attributeValueTag, [(groupAttrName, "g")], none, []⟩ ∧
    avParseOne
      (AttributeValueElementTreeFactory.init defaultMaps
        [(.customK 4, esgCustomHandler)] [("esg:custom", esgCustomHandler)])
      customAVElem = .ok (.custom 4 "decoded") :=
  ⟨(c7_codec_registration_amended.1 defaultMaps 4 esgCustomHandler "esg:custom"
      (.custom 4 "x") rfl).1,
   (c7_codec_registration_amended.2.1 4 esgCustomHandler "esg:custom" none
      (by decide)).2,
   c7_codec_registration_amended.2.2.1 4 (.custom 4 "x") rfl,
   c7_codec_registration_amended.2.2.2.1 "esg:custom" (by decide),
   c7_codec_registration_amended.2.2.2.2.1 defaultMaps 4 esgCustomHandler "esg:custom"
     (.custom 4 "x") ⟨attributeValueTag, [(groupAttrName, "g")], none, []⟩ rfl rfl,
   c7_codec_registration_amended.2.2.2.2.2 defaultMaps 4 esgCustomHandler "esg:custom"
     customAVElem (fun _ => .ok (.custom 4 "decoded")) (.custom 4 "decoded")
     rfl rfl rfl rfl⟩

/-- C8 (corrected).  `AssertionElementTree.create` appends the optional
issuer, subject and conditions children only when the corresponding field
is present (an absent field contributes no element at all) and serialises
the repeated attribute statements preserving caller order; but
`ResponseElementTree.create` serialises issuer and status unconditionally
— a response whose issuer is `None` raises `TypeError` instead of
producing an element without an Issuer child (see the counterexample) —
and when it succeeds its children are exactly the issuer element, the
status element, and the assertion elements in caller-supplied order. -/
theorem c8_optional_children_amended :
    (∀ (st : FactoryMaps) (a : Assertion) (e : XMLElem),
      AssertionElementTree.create st a = .ok e →
      ∃ subjElems condElems stElems,
        optSubjectElems a.subject = .ok subjElems ∧
        optConditionsElems a.conditions = .ok condElems ∧
        exceptMapM (AttributeStatementElementTree.create st) a.attributeStatements
          = .ok stElems ∧
        e.children = (match a.issuer with
                      | some i => [IssuerElementTree.create i]
                      | none => []) ++ subjElems ++ condElems ++ stElems) ∧
    (∀ (st : FactoryMaps) (r : Response), r.issuer = none →
      ResponseElementTree.create st r = .error .typeMismatch) ∧
    (∀ (st : FactoryMaps) (r : Response) (e : XMLElem),
      ResponseElementTree.create st r = .ok e →
      ∃ i statusElem assertElems, r.issuer = some i ∧
        exceptMapM (AssertionElementTree.create st) r.assertions = .ok assertElems ∧
        e.children = IssuerElementTree.create i :: statusElem :: assertElems) := by
  refine ⟨?_, ?_, ?_⟩
  · intro st a e h
    unfold AssertionElementTree.create at h
    cases hse : optSubjectElems a.subject with
    | error er => rw [hse] at h; simp at h
    | ok subjElems =>
      rw [hse] at h
      try dsimp only at h
      by_cases hadv : a.advice.isSome
      · rw [if_pos hadv] at h; simp at h
      · rw [if_neg hadv] at h
        cases hce : optConditionsElems a.conditions with
        | error er => rw [hce] at h; simp at h
        | ok condElems =>
          rw [hce] at h
          try dsimp only at h
          cases hstl : a.statements with
          | cons u us => rw [hstl] at h; simp at h
          | nil =>
            rw [hstl] at h
            try dsimp only at h
            cases hanl : a.authnStatements with
            | cons u us => rw [hanl] at h; simp at h
            | nil =>
              rw [hanl] at h
              try dsimp only at h
              cases hazl : a.authzDecisionStatements with
              | cons u us => rw [hazl] at h; simp at h
              | nil =>
                rw [hazl] at h
                try dsimp only at h
                cases hmsl : exceptMapM (AttributeStatementElementTree.create st)
                    a.attributeStatements with
                | error er => rw [hmsl] at h; simp at h
                | ok stElems =>
                  rw [hmsl] at h
                  simp only [Except.ok.injEq] at h
                  subst h
                  exact ⟨subjElems, condElems, stElems, rfl, rfl, rfl, rfl⟩
  · intro st r h
    unfold ResponseElementTree.create
    rw [h]
  · intro st r e h
    unfold ResponseElementTree.create at h
    cases hri : r.issuer with
    | none => rw [hri] at h; simp at h
    | some i =>
      rw [hri] at h
      try dsimp only at h
      cases hrs : r.status with
      | none => rw [hrs] at h; simp at h
      | some stt =>
        rw [hrs] at h
        try dsimp only at h
        cases hsc : StatusElementTree.create stt with
        | error er => rw [hsc] at h; simp at h
        | ok statusElem =>
          rw [hsc] at h
          try dsimp only at h
          cases hmap : exceptMapM (AssertionElementTree.create st) r.assertions with
          | error er => rw [hmap] at h; simp at h
          | ok assertElems =>
            rw [hmap] at h
            simp only [Except.ok.injEq] at h
            subst h
            exact ⟨i, statusElem, assertElems, rfl, rfl, rfl⟩

/-- Response whose optional issuer is absent. -/
def respNoIssuer : Response :=
  { id := "r-3", issueInstant := 1, version := "2.0", inResponseTo := "q-3",
    issuer := none, status := some ⟨some ⟨some "urn:s"⟩, none⟩, subject := none,
    assertions := [] }

/-- C8 counterexample: `respNoIssuer` has issuer `None`, and
`ResponseElementTree.create` raises `TypeError` rather than producing an
element that simply omits the Issuer child — contradicting "a Response's
optional issuer set to None produces no element at all rather than an
empty element". -/
theorem c8_optional_children_counterexample :
    ResponseElementTree.create defaultMaps respNoIssuer = .error .typeMismatch := rfl

/-- Assertion with issuer present and all other optional parts absent. -/
def assertionC8 : Assertion :=
  { id := "a-8", issueInstant := 4, version := "2.0",
    issuer := some ⟨some "urn:f", some "CN=I"⟩, subject := none, advice := none,
    conditions := none, statements := [], authnStatements := [],
    authzDecisionStatements := [], attributeStatements := [] }

/-- Element `AssertionElementTree.create` produces for `assertionC8`. -/
def assertionC8Elem : XMLElem :=
  ⟨assertionTag,
   [(idAttrName, "a-8"), (issueInstantAttrName, "4"), (versionAttrName, "2.0")],
   none, [IssuerElementTree.create ⟨some "urn:f", some "CN=I"⟩]⟩

/-- Response with issuer absent, distinct from `respNoIssuer`. -/
def respNoIssuer2 : Response :=
  { id := "r-9", issueInstant := 1, version := "2.0", inResponseTo := "q-9",
    issuer := none, status := some ⟨some ⟨some "urn:s"⟩, none⟩, subject := none,
    assertions := [] }

/-- Serialisable response carrying one assertion. -/
def respC8 : Response :=
  { id := "r-8", issueInstant := 5, version := "2.0", inResponseTo := "q-8",
    issuer := some ⟨some "urn:f", some "CN=I"⟩,
    status := some ⟨some ⟨some "urn:s"⟩, none⟩, subject := none,
    assertions := [assertionC8] }

/-- Element `ResponseElementTree.create` produces for `respC8`. -/
def respC8Elem : XMLElem :=
  ⟨responseTag,
   [(idAttrName, "r-8"), (issueInstantAttrName, "5"), (inResponseToAttrName, "q-8"),
    (versionAttrName, "2.0")],
   none,
   [IssuerElementTree.create ⟨some "urn:f", some "CN=I"⟩, statusElemPure ⟨some "urn:s"⟩,
    assertionC8Elem]⟩

theorem c8_optional_children_witness :
    (∃ subjElems condElems stElems,
      optSubjectElems assertionC8.subject = .ok subjElems ∧
      optConditionsElems assertionC8.conditions = .ok condElems ∧
      exceptMapM (AttributeStatementElementTree.create defaultMaps)
        assertionC8.attributeStatements = .ok stElems ∧
      assertionC8Elem.children = (match assertionC8.issuer with
        | some i => [IssuerElementTree.create i]
        | none => []) ++ subjElems ++ condElems ++ stElems) ∧
    ResponseElementTree.create defaultMaps respNoIssuer2 = .error .typeMismatch ∧
    (∃ i statusElem assertElems, respC8.issuer = some i ∧
      exceptMapM (AssertionElementTree.create defaultMaps) respC8.assertions
        = .ok assertElems ∧
      respC8Elem.children = IssuerElementTree.create i :: statusElem :: assertElems) :=
  ⟨c8_optional_children_amended.1 defaultMaps assertionC8 assertionC8Elem rfl,
   c8_optional_children_amended.2.1 defaultMaps respNoIssuer2 rfl,
   c8_optional_children_amended.2.2 defaultMaps respC8 respC8Elem rfl⟩

end NdgSaml
